import Mathlib

/-!
Verification of the process-tracking and session IPC subsystem
(`launchers/process_tracker.py` and `launchers/process_tracker_service.py`).

The Python code is shallowly embedded: the two mutable dictionaries
(`ProcessTracker.tracked_processes` and
`ProcessTrackerService.pending_sessions`) become association lists with
Python-dict semantics (assignment updates in place or appends, `del`
removes the key), every method becomes a pure function threading the state
explicitly, and the OS / `psutil` environment becomes an explicit process
table passed to each operation.  Wall-clock time is a `Nat` argument
(`time.time()` becomes the `now` parameter of each call).  JSON values
written to stdout are modelled by the inductive `JVal`.
-/

namespace ProcTrack

/-! ## Association lists with Python-dict semantics -/

/-- Membership test for a key, as Python's `in` on a dict. -/
def alContains (l : List (Nat × α)) (k : Nat) : Bool :=
  l.any (fun kv => kv.1 == k)

/-- Lookup, as Python's `dict[k]` / `dict.get(k)`. -/
def alLookup (l : List (Nat × α)) (k : Nat) : Option α :=
  (l.find? (fun kv => kv.1 == k)).map Prod.snd

/-- Assignment `dict[k] = v`: update in place when the key exists,
append otherwise (Python dicts keep insertion order). -/
def alInsert (l : List (Nat × α)) (k : Nat) (v : α) : List (Nat × α) :=
  if l.any (fun kv => kv.1 == k) then
    l.map (fun kv => if kv.1 == k then (k, v) else kv)
  else
    l ++ [(k, v)]

/-- Deletion `del dict[k]`. -/
def alErase (l : List (Nat × α)) (k : Nat) : List (Nat × α) :=
  l.filter (fun kv => kv.1 != k)

/-! ## The OS / psutil environment

The daemon inspects the OS through `psutil`.  The process table visible at
a given moment is modelled as a list of `OsProc` records; every operation
that queries the OS receives the table as the `env` argument.  Path
normalization (`Path(...).resolve()`) is modelled as the identity: `exe`
fields hold already-normalized paths. -/

structure OsProc where
  pid : Nat
  name : String
  exe : Option String
  create_time : Nat
  zombie : Bool
deriving DecidableEq, Repr

/-- The `psutil.Process` object stored by `start_tracking`: psutil pins the
identity of the process as the pair (pid, creation time) captured when the
handle is created. -/
structure ProcHandle where
  pid : Nat
  create_time : Nat
deriving DecidableEq, Repr

/-- The process currently occupying a pid, if any (`psutil` queries by pid). -/
def procByPid (env : List OsProc) (pid : Nat) : Option OsProc :=
  env.find? (fun p => p.pid == pid)

/-- `psutil.Process.is_running()`: per psutil's documented semantics it
returns `False` when the process is gone or when the PID has been reused,
which it detects by comparing the current creation time at that pid with
the creation time captured in the handle. -/
def psutil_is_running (env : List OsProc) (h : ProcHandle) : Bool :=
  match procByPid env h.pid with
  | some p => p.create_time == h.create_time
  | none => false

/-- `psutil.Process.status() == psutil.STATUS_ZOMBIE` for the process at
the handle's pid (a vanished process raises `NoSuchProcess`, which the
caller catches and treats as not running, so `false` here is inert). -/
def psutil_status_zombie (env : List OsProc) (h : ProcHandle) : Bool :=
  match procByPid env h.pid with
  | some p => p.zombie
  | none => false

/-! ## ProcessTracker (`launchers/process_tracker.py`) -/

/-- `Path(exe_path).name`: the final component of the path. -/
def pathBaseName (s : String) : String :=
  (((s.splitOn "/").getLastD s).splitOn "\\").getLastD s

/-- `ProcessTracker.find_process_by_path`: first process whose resolved
executable path equals the (normalized) argument. -/
def find_process_by_path (env : List OsProc) (exe_path : String) : Option OsProc :=
  env.find? (fun p => p.exe == some exe_path)

/-- `ProcessTracker.find_process_by_name`: first process whose image name
matches case-insensitively. -/
def find_process_by_name (env : List OsProc) (process_name : String) : Option OsProc :=
  env.find? (fun p => p.name.toLower == process_name.toLower)

/-- The resolution chain inside `ProcessTracker.start_tracking`: by path
first, then by base name as a fallback. -/
def resolve_process (env : List OsProc) (exe_path : String) : Option OsProc :=
  match find_process_by_path env exe_path with
  | some p => some p
  | none => find_process_by_name env (pathBaseName exe_path)

/-- One value of `ProcessTracker.tracked_processes`: the dict literal built
by `start_tracking` (`process`, `game_name`, `exe_path`, `start_time`,
`pid`, `create_time`). -/
structure TrackedInfo where
  process : ProcHandle
  game_name : String
  exe_path : String
  start_time : Nat
  pid : Nat
  create_time : Nat
deriving DecidableEq, Repr

/-- `ProcessTracker.start_tracking`: resolve the process; on success store
the session entry and return `True`, otherwise leave the map unchanged and
return `False`. -/
def pt_start_tracking (env : List OsProc) (now : Nat) (tracked : List (Nat × TrackedInfo))
    (session_id : Nat) (exe_path game_name : String) : List (Nat × TrackedInfo) × Bool :=
  match resolve_process env exe_path with
  | none => (tracked, false)
  | some p =>
    (alInsert tracked session_id
      { process := ⟨p.pid, p.create_time⟩
        game_name := game_name
        exe_path := exe_path
        start_time := now
        pid := p.pid
        create_time := p.create_time }, true)

/-- `ProcessTracker.is_process_running`: `False` for an unknown id;
otherwise `process.is_running() and process.status() != psutil.STATUS_ZOMBIE`
(psutil exceptions are caught and yield `False`). -/
def pt_is_process_running (env : List OsProc) (tracked : List (Nat × TrackedInfo))
    (session_id : Nat) : Bool :=
  match alLookup tracked session_id with
  | none => false
  | some info => psutil_is_running env info.process && !psutil_status_zombie env info.process

/-- `ProcessTracker.get_runtime`: `0` for an unknown id; otherwise
`int(time.time() - start_time)` — the source computes the same expression
in both the running and the ended branch of its `if`. -/
def pt_get_runtime (env : List OsProc) (now : Nat) (tracked : List (Nat × TrackedInfo))
    (session_id : Nat) : Nat :=
  match alLookup tracked session_id with
  | none => 0
  | some info =>
    if pt_is_process_running env tracked session_id then
      now - info.start_time
    else
      now - info.start_time

/-- `ProcessTracker.stop_tracking`: compute the runtime, delete the entry
when present, return the runtime. -/
def pt_stop_tracking (env : List OsProc) (now : Nat) (tracked : List (Nat × TrackedInfo))
    (session_id : Nat) : List (Nat × TrackedInfo) × Nat :=
  let runtime := pt_get_runtime env now tracked session_id
  if alContains tracked session_id then
    (alErase tracked session_id, runtime)
  else
    (tracked, runtime)

/-- `ProcessTracker.check_all_processes`: build `{session_id: is_running}`
over all tracked keys; the method mutates nothing (its "auto-cleanup"
comment only prints), so the state component it returns is the input map. -/
def pt_check_all_processes (env : List OsProc) (tracked : List (Nat × TrackedInfo)) :
    List (Nat × TrackedInfo) × List (Nat × Bool) :=
  (tracked, tracked.map (fun kv => (kv.1, pt_is_process_running env tracked kv.1)))

/-! ## JSON values on the wire -/

/-- JSON values emitted on stdout, one per line. -/
inductive JVal where
  | jnull
  | jbool (b : Bool)
  | jnum (n : Nat)
  | jstr (s : String)
  | jarr (items : List JVal)
  | jobj (fields : List (String × JVal))

/-- Field access on a JSON object. -/
def jfield (j : JVal) (k : String) : Option JVal :=
  match j with
  | .jobj fs => (fs.find? (fun f => f.1 == k)).map Prod.snd
  | _ => none

/-- `ProcessTrackerService.send_response`: the envelope
`{success, data, error, timestamp}`. -/
def mkResponse (success : Bool) (data : JVal) (error : JVal) (now : Nat) : JVal :=
  .jobj [("success", .jbool success), ("data", data), ("error", error),
    ("timestamp", .jnum now)]

/-- `ProcessTrackerService.send_notification`: the envelope
`{type:"notification", event, data, timestamp}`. -/
def mkNotif (event : String) (data : JVal) (now : Nat) : JVal :=
  .jobj [("type", .jstr "notification"), ("event", .jstr event), ("data", data),
    ("timestamp", .jnum now)]

/-- True when `j` is a notification for `event` whose payload names
session `sid`. -/
def isNotifFor (event : String) (sid : Nat) (j : JVal) : Bool :=
  match jfield j "type", jfield j "event", jfield j "data" with
  | some (.jstr t), some (.jstr e), some d =>
    t == "notification" && e == event &&
      (match jfield d "session_id" with
       | some (.jnum n) => n == sid
       | _ => false)
  | _, _, _ => false

/-- True when the payload of `j` carries field `k` with numeric value `n`. -/
def dataNumIs (k : String) (n : Nat) (j : JVal) : Bool :=
  match jfield j "data" with
  | some d =>
    match jfield d k with
    | some (.jnum m) => m == n
    | _ => false
  | none => false

/-- True when the payload of `j` carries field `k` with string value `s`. -/
def dataStrIs (k : String) (s : String) (j : JVal) : Bool :=
  match jfield j "data" with
  | some d =>
    match jfield d k with
    | some (.jstr t) => t == s
    | _ => false
  | none => false

/-- True when a session-snapshot object names session `sid`. -/
def mentionsSession (sid : Nat) (j : JVal) : Bool :=
  match jfield j "session_id" with
  | some (.jnum n) => n == sid
  | _ => false

/-! ## ProcessTrackerService (`launchers/process_tracker_service.py`) -/

/-- The `params` dict of a `start_tracking` command after the handler's
`.get` extraction (with its defaults already applied: `exe_path` defaults
to `''`, `game_name` to `'Unknown Game'`, `wait_for_process` to `True`,
`timeout` to `300`). -/
structure StartParams where
  session_id : Nat
  exe_path : String
  game_name : String
  wait_for_process : Bool
  timeout : Nat
deriving DecidableEq, Repr

/-- One value of `ProcessTrackerService.pending_sessions`:
`{params, start_time, timeout}`. -/
structure PendingInfo where
  params : StartParams
  start_time : Nat
  timeout : Nat
deriving DecidableEq, Repr

/-- The mutable state of the service: the tracker's map, the pending map,
and the `running` flag. -/
structure SvcState where
  tracked : List (Nat × TrackedInfo)
  pending : List (Nat × PendingInfo)
  running : Bool
deriving DecidableEq, Repr

/-- The service's initial state. -/
def initState : SvcState := ⟨[], [], true⟩

/-- `ProcessTrackerService.handle_start_tracking` (the non-raising path:
all params present).  Try to start tracking immediately; on failure either
enqueue a pending session (when `wait_for_process`) or answer with an
error. -/
def handle_start_tracking (env : List OsProc) (now : Nat) (st : SvcState)
    (p : StartParams) : SvcState × List JVal :=
  let step := pt_start_tracking env now st.tracked p.session_id p.exe_path p.game_name
  let st1 : SvcState := { st with tracked := step.1 }
  if step.2 then
    (st1, [mkResponse true (.jobj [("tracking_started", .jbool true),
      ("session_id", .jnum p.session_id), ("game_name", .jstr p.game_name)]) .jnull now])
  else if p.wait_for_process then
    ({ st1 with pending := alInsert st1.pending p.session_id ⟨p, now, p.timeout⟩ },
     [mkResponse true (.jobj [("tracking_started", .jbool false), ("pending", .jbool true),
       ("session_id", .jnum p.session_id), ("game_name", .jstr p.game_name),
       ("message", .jstr "Waiting for process to start")]) .jnull now])
  else
    (st1, [mkResponse false .jnull (.jstr ("Process not found: " ++ p.exe_path)) now])

/-- `ProcessTrackerService.handle_stop_tracking`: cancel a pending session
(runtime 0) or stop an active one via the tracker. -/
def handle_stop_tracking (env : List OsProc) (now : Nat) (st : SvcState)
    (session_id : Nat) : SvcState × List JVal :=
  if alContains st.pending session_id then
    ({ st with pending := alErase st.pending session_id },
     [mkResponse true (.jobj [("session_id", .jnum session_id), ("runtime", .jnum 0),
       ("message", .jstr "Pending tracking cancelled")]) .jnull now])
  else
    let step := pt_stop_tracking env now st.tracked session_id
    ({ st with tracked := step.1 },
     [mkResponse true (.jobj [("session_id", .jnum session_id),
       ("runtime", .jnum step.2)]) .jnull now])

/-- `ProcessTrackerService.handle_check_session`. -/
def handle_check_session (env : List OsProc) (now : Nat) (st : SvcState)
    (session_id : Nat) : SvcState × List JVal :=
  if alContains st.pending session_id then
    (st, [mkResponse true (.jobj [("session_id", .jnum session_id),
      ("is_running", .jbool false), ("status", .jstr "pending"),
      ("runtime", .jnum 0)]) .jnull now])
  else
    let is_running := pt_is_process_running env st.tracked session_id
    let runtime := if is_running then pt_get_runtime env now st.tracked session_id else 0
    (st, [mkResponse true (.jobj [("session_id", .jnum session_id),
      ("is_running", .jbool is_running), ("runtime", .jnum runtime)]) .jnull now])

/-- One entry of `ProcessTracker.get_active_sessions`. -/
def activeSessionJson (env : List OsProc) (now : Nat) (tracked : List (Nat × TrackedInfo))
    (kv : Nat × TrackedInfo) : JVal :=
  .jobj [("session_id", .jnum kv.1), ("game_name", .jstr kv.2.game_name),
    ("pid", .jnum kv.2.pid), ("runtime", .jnum (pt_get_runtime env now tracked kv.1))]

/-- `ProcessTracker.get_active_sessions`: entries for the sessions whose
process is currently running. -/
def pt_get_active_sessions (env : List OsProc) (now : Nat)
    (tracked : List (Nat × TrackedInfo)) : List JVal :=
  (tracked.filter (fun kv => pt_is_process_running env tracked kv.1)).map
    (activeSessionJson env now tracked)

/-- One pending entry of the `get_all_sessions` snapshot. -/
def pendingSessionJson (now : Nat) (kv : Nat × PendingInfo) : JVal :=
  .jobj [("session_id", .jnum kv.1), ("game_name", .jstr kv.2.params.game_name),
    ("status", .jstr "pending"), ("elapsed_wait", .jnum (now - kv.2.start_time))]

/-- The session list assembled by
`ProcessTrackerService.handle_get_all_sessions`: active sessions from the
tracker followed by the pending ones. -/
def snapshotSessions (env : List OsProc) (now : Nat) (st : SvcState) : List JVal :=
  pt_get_active_sessions env now st.tracked ++ st.pending.map (pendingSessionJson now)

/-- `ProcessTrackerService.handle_get_all_sessions`. -/
def handle_get_all_sessions (env : List OsProc) (now : Nat) (st : SvcState) :
    SvcState × List JVal :=
  (st, [mkResponse true (.jobj [("sessions", .jarr (snapshotSessions env now st))])
    .jnull now])

/-- `ProcessTrackerService.handle_check_all`: report
`{status: {session_id: is_running}}` (JSON object keys are strings). -/
def handle_check_all (env : List OsProc) (now : Nat) (st : SvcState) :
    SvcState × List JVal :=
  let step := pt_check_all_processes env st.tracked
  ({ st with tracked := step.1 },
   [mkResponse true (.jobj [("status",
     .jobj (step.2.map (fun kv => (toString kv.1, JVal.jbool kv.2))))]) .jnull now])

/-! ### The pending tick (`check_pending_sessions`) -/

/-- Result of the first loop of `check_pending_sessions`. -/
structure ScanResult where
  tracked : List (Nat × TrackedInfo)
  started : List (Nat × String)
  timedOut : List Nat
deriving Repr

/-- The first loop of `ProcessTrackerService.check_pending_sessions`: walk
the pending entries; a timed-out entry (`now - start_time > timeout`) is
collected and skipped (`continue`), otherwise `tracker.start_tracking` is
attempted and a success is collected.  The tracker map accumulates the
successful starts, exactly as the Python loop mutates `self.tracker`. -/
def cps_scan (env : List OsProc) (now : Nat) :
    List (Nat × PendingInfo) → List (Nat × TrackedInfo) → ScanResult
  | [], tracked => ⟨tracked, [], []⟩
  | (sid, info) :: rest, tracked =>
    if now - info.start_time > info.timeout then
      let r := cps_scan env now rest tracked
      ⟨r.tracked, r.started, sid :: r.timedOut⟩
    else
      let step := pt_start_tracking env now tracked sid info.params.exe_path
        info.params.game_name
      let r := cps_scan env now rest step.1
      if step.2 then ⟨r.tracked, (sid, info.params.game_name) :: r.started, r.timedOut⟩
      else ⟨r.tracked, r.started, r.timedOut⟩

/-- The second loop of `check_pending_sessions`: for each started session
delete the pending entry and emit a `tracking_started` notification. -/
def cps_started_loop (now : Nat) :
    List (Nat × String) → List (Nat × PendingInfo) → List (Nat × PendingInfo) × List JVal
  | [], pending => (pending, [])
  | (sid, name) :: rest, pending =>
    let pending1 := alErase pending sid
    let note := mkNotif "tracking_started"
      (.jobj [("session_id", .jnum sid), ("game_name", .jstr name)]) now
    let r := cps_started_loop now rest pending1
    (r.1, note :: r.2)

/-- The third loop of `check_pending_sessions`: for each timed-out session
read its game name, delete the pending entry and emit a `tracking_failed`
notification with reason `"timeout"`.  (The entry is present whenever this
loop runs on the scan's output, since a timed-out id was neither started
nor previously deleted; the `none` branch mirrors the `.get` default.) -/
def cps_failed_loop (now : Nat) :
    List Nat → List (Nat × PendingInfo) → List (Nat × PendingInfo) × List JVal
  | [], pending => (pending, [])
  | sid :: rest, pending =>
    let name := match alLookup pending sid with
      | some info => info.params.game_name
      | none => "Unknown"
    let pending1 := alErase pending sid
    let note := mkNotif "tracking_failed"
      (.jobj [("session_id", .jnum sid), ("game_name", .jstr name),
        ("reason", .jstr "timeout")]) now
    let r := cps_failed_loop now rest pending1
    (r.1, note :: r.2)

/-- `ProcessTrackerService.check_pending_sessions`: the scan followed by
the two notification loops. -/
def check_pending_sessions (env : List OsProc) (now : Nat) (st : SvcState) :
    SvcState × List JVal :=
  let scan := cps_scan env now st.pending st.tracked
  let stepStarted := cps_started_loop now scan.started st.pending
  let stepFailed := cps_failed_loop now scan.timedOut stepStarted.1
  ({ st with tracked := scan.tracked, pending := stepFailed.1 },
   stepStarted.2 ++ stepFailed.2)

/-! ### The liveness sweep and the monitor tick (`monitor_processes` body) -/

/-- The notification/removal loop of a monitor tick: for each reported
`(session_id, is_running)` with `is_running` false, read the runtime, emit
`process_ended{session_id, runtime}`, and call `stop_tracking` on the
tracker (which deletes the entry). -/
def sweep_loop (env : List OsProc) (now : Nat) :
    List (Nat × Bool) → List (Nat × TrackedInfo) → List (Nat × TrackedInfo) × List JVal
  | [], tracked => (tracked, [])
  | (_, true) :: rest, tracked => sweep_loop env now rest tracked
  | (sid, false) :: rest, tracked =>
    let runtime := pt_get_runtime env now tracked sid
    let note := mkNotif "process_ended"
      (.jobj [("session_id", .jnum sid), ("runtime", .jnum runtime)]) now
    let step := pt_stop_tracking env now tracked sid
    let r := sweep_loop env now rest step.1
    (r.1, note :: r.2)

/-- One iteration of `ProcessTrackerService.monitor_processes`:
`check_all_processes`, then the ended-session sweep, then
`check_pending_sessions`. -/
def monitor_tick (env : List OsProc) (now : Nat) (st : SvcState) : SvcState × List JVal :=
  let status := (pt_check_all_processes env st.tracked).2
  let sw := sweep_loop env now status st.tracked
  let st1 : SvcState := { st with tracked := sw.1 }
  let cp := check_pending_sessions env now st1
  (cp.1, sw.2 ++ cp.2)

/-! ### Command dispatch and the stdin loop -/

/-- A decoded command line (`command` plus its extracted `params`). -/
inductive Cmd where
  | start_tracking (p : StartParams)
  | stop_tracking (session_id : Nat)
  | check_session (session_id : Nat)
  | get_all_sessions
  | check_all
  | ping
  | shutdown
  | unknown (name : String)
deriving DecidableEq, Repr

/-- `ProcessTrackerService.handle_command`: dispatch on the `command`
field. -/
def handle_command (env : List OsProc) (now : Nat) (st : SvcState) :
    Cmd → SvcState × List JVal
  | .start_tracking p => handle_start_tracking env now st p
  | .stop_tracking sid => handle_stop_tracking env now st sid
  | .check_session sid => handle_check_session env now st sid
  | .get_all_sessions => handle_get_all_sessions env now st
  | .check_all => handle_check_all env now st
  | .ping => (st, [mkResponse true (.jobj [("message", .jstr "pong")]) .jnull now])
  | .shutdown => ({ st with running := false },
      [mkResponse true (.jobj [("message", .jstr "shutting down")]) .jnull now])
  | .unknown name =>
      (st, [mkResponse false .jnull (.jstr ("Unknown command: " ++ name)) now])

/-- The body of the stdin loop in `ProcessTrackerService.run` for one
non-blank line: `json.loads` either yields a command, or raises
`json.JSONDecodeError` with some detail, in which case one error response
`"Invalid JSON: <detail>"` is sent and nothing else happens. -/
def process_line (env : List OsProc) (now : Nat) (st : SvcState) :
    Except String Cmd → SvcState × List JVal
  | .error detail =>
      (st, [mkResponse false .jnull (.jstr ("Invalid JSON: " ++ detail)) now])
  | .ok c => handle_command env now st c

/-! ### Operation sequences over the shared state

The two maps are mutated by the command handlers and by the monitor
thread's two phases.  An `Op` records one such atomic operation together
with the process table and clock it observed. -/

/-- One state-mutating operation, with the environment it observed. -/
inductive Op where
  | opStart (env : List OsProc) (now : Nat) (p : StartParams)
  | opStop (env : List OsProc) (now : Nat) (session_id : Nat)
  | opSweep (env : List OsProc) (now : Nat)
  | opPendingTick (env : List OsProc) (now : Nat)
deriving Repr

/-- Apply one operation to the service state. -/
def applyOp (st : SvcState) : Op → SvcState
  | .opStart env now p => (handle_start_tracking env now st p).1
  | .opStop env now sid => (handle_stop_tracking env now st sid).1
  | .opSweep env now =>
      { st with tracked := (sweep_loop env now (pt_check_all_processes env st.tracked).2
          st.tracked).1 }
  | .opPendingTick env now => (check_pending_sessions env now st).1

/-- Run a sequence of operations from a state. -/
def runOps (st : SvcState) (ops : List Op) : SvcState :=
  ops.foldl applyOp st

/-- The core invariant of the data model: no session id is in both maps. -/
def disjointMaps (st : SvcState) : Bool :=
  st.tracked.all (fun kv => !alContains st.pending kv.1)

/-- An operation respects the caller's session-id uniqueness obligation
when a `start_tracking` command never reuses an id that is still active or
pending. -/
def freshOp (st : SvcState) : Op → Bool
  | .opStart _ _ p => !alContains st.tracked p.session_id && !alContains st.pending p.session_id
  | _ => true

/-- All operations of a sequence are fresh at the state they run in. -/
def freshRun : SvcState → List Op → Bool
  | _, [] => true
  | st, op :: rest => freshOp st op && freshRun (applyOp st op) rest

/-! ## Concrete inputs used by counterexamples and witnesses -/

/-- An OS snapshot with no processes. -/
def envEmpty : List OsProc := []

/-- The game's process, alive. -/
def gameProc : OsProc :=
  { pid := 7, name := "g.exe", exe := some "g.exe", create_time := 3, zombie := false }

/-- An OS snapshot in which the game process runs. -/
def envUp : List OsProc := [gameProc]

/-- A `start_tracking` request for session 1 with waiting allowed. -/
def startParamsG : StartParams :=
  { session_id := 1, exe_path := "g.exe", game_name := "G", wait_for_process := true,
    timeout := 300 }

/-- Issue `start_tracking` for session 1 while the process is down (enqueues
the session as pending), then issue it again once the process is up. -/
def opsBoth : List Op := [.opStart envEmpty 10 startParamsG, .opStart envUp 20 startParamsG]

/-- A session-id-unique operation sequence. -/
def opsFresh : List Op :=
  [.opStart envUp 10 startParamsG, .opStop envUp 20 1, .opPendingTick envUp 30,
   .opSweep envEmpty 40]

/-- A tracked session whose process has since vanished. -/
def deadInfo : TrackedInfo :=
  { process := ⟨7, 3⟩, game_name := "G", exe_path := "g.exe", start_time := 10, pid := 7,
    create_time := 3 }

/-- Tracker map holding only the dead session. -/
def deadTracked : List (Nat × TrackedInfo) := [(1, deadInfo)]

/-- Session 1 pending since t=10 with a 300s budget. -/
def pendInfoG : PendingInfo := { params := startParamsG, start_time := 10, timeout := 300 }

/-- Service state with one pending session. -/
def stPend : SvcState := ⟨[], [(1, pendInfoG)], true⟩

/-- Service state with one dead tracked session. -/
def stDead : SvcState := ⟨deadTracked, [], true⟩

/-- An unrelated process that reused pid 7 (different creation time). -/
def reusedProc : OsProc :=
  { pid := 7, name := "other.exe", exe := some "other.exe", create_time := 99,
    zombie := false }

/-- An OS snapshot after pid reuse. -/
def envReused : List OsProc := [reusedProc]


/-! ## Lemmas -/

theorem bool_eq_of_iff {a b : Bool} (h : a = true ↔ b = true) : a = b := by
  cases a <;> cases b <;> simp_all

theorem alContains_cons (kv : Nat × α) (l : List (Nat × α)) (k : Nat) :
    alContains (kv :: l) k = (kv.1 == k || alContains l k) := by
  simp [alContains]

theorem alLookup_cons (kv : Nat × α) (l : List (Nat × α)) (k : Nat) :
    alLookup (kv :: l) k = if kv.1 == k then some kv.2 else alLookup l k := by
  cases h : (kv.1 == k) <;> simp [alLookup, List.find?, h]

theorem alErase_cons (kv : Nat × α) (l : List (Nat × α)) (k : Nat) :
    alErase (kv :: l) k = if kv.1 == k then alErase l k else kv :: alErase l k := by
  by_cases h : kv.1 = k
  · subst h
    simp [alErase, List.filter_cons]
  · simp [alErase, List.filter_cons, h]

theorem alContains_eq_isSome_alLookup (l : List (Nat × α)) (k : Nat) :
    alContains l k = (alLookup l k).isSome := by
  induction l with
  | nil => rfl
  | cons kv rest ih =>
    rw [alContains_cons, alLookup_cons]
    cases h : (kv.1 == k) with
    | true => simp [h]
    | false => simp [h, ih]

theorem alContains_iff_mem_keys (l : List (Nat × α)) (k : Nat) :
    alContains l k = true ↔ k ∈ l.map Prod.fst := by
  simp only [alContains, List.any_eq_true, List.mem_map, beq_iff_eq]

theorem alContains_alErase (l : List (Nat × α)) (k k' : Nat) :
    alContains (alErase l k) k' = (alContains l k' && (k' != k)) := by
  induction l with
  | nil => rfl
  | cons kv rest ih =>
    rw [alErase_cons]
    cases h : (kv.1 == k) with
    | true =>
      have hk : kv.1 = k := beq_iff_eq.mp h
      simp only [if_true]
      rw [ih, alContains_cons]
      by_cases h2 : k' = k
      · subst h2
        have : (kv.1 == k') = true := by simp [hk]
        simp [this]
      · have : (kv.1 == k') = false := by
          rw [hk]; exact beq_eq_false_iff_ne.mpr (Ne.symm h2)
        simp [this, h2]
    | false =>
      simp only [Bool.false_eq_true, if_false]
      rw [alContains_cons, ih, alContains_cons]
      by_cases h2 : (kv.1 == k') = true
      · have hk' : kv.1 = k' := beq_iff_eq.mp h2
        have hne : k' ≠ k := by
          rw [← hk']
          intro he
          rw [he] at h
          simp at h
        simp [h2, hne]
      · simp only [Bool.not_eq_true] at h2
        simp [h2, Bool.and_or_distrib_right]

theorem alLookup_alErase_ne (l : List (Nat × α)) (k k' : Nat) (h : k' ≠ k) :
    alLookup (alErase l k) k' = alLookup l k' := by
  induction l with
  | nil => rfl
  | cons kv rest ih =>
    rw [alErase_cons]
    cases hh : (kv.1 == k) with
    | true =>
      have hk : kv.1 = k := beq_iff_eq.mp hh
      simp only [if_true]
      rw [ih, alLookup_cons]
      have : (kv.1 == k') = false := by
        rw [hk]; exact beq_eq_false_iff_ne.mpr (Ne.symm h)
      simp [this]
    | false =>
      simp only [Bool.false_eq_true, if_false]
      rw [alLookup_cons, alLookup_cons, ih]

theorem keys_replace (l : List (Nat × α)) (k : Nat) (v : α) :
    (l.map (fun kv => if kv.1 == k then (k, v) else kv)).map Prod.fst = l.map Prod.fst := by
  induction l with
  | nil => rfl
  | cons kv rest ih =>
    simp only [List.map_cons, ih]
    cases h : (kv.1 == k) with
    | true =>
      have : kv.1 = k := beq_iff_eq.mp h
      simp [h, this]
    | false => simp [h]

theorem alContains_alInsert (l : List (Nat × α)) (k : Nat) (v : α) (k' : Nat) :
    alContains (alInsert l k v) k' = (alContains l k' || (k' == k)) := by
  apply bool_eq_of_iff
  simp only [Bool.or_eq_true, beq_iff_eq, alContains_iff_mem_keys]
  unfold alInsert
  by_cases h : l.any (fun kv => kv.1 == k) = true
  · rw [if_pos h, keys_replace]
    have hk : k ∈ l.map Prod.fst :=
      (alContains_iff_mem_keys l k).mp (show alContains l k = true from h)
    constructor
    · exact Or.inl
    · rintro (hm | rfl)
      · exact hm
      · exact hk
  · rw [if_neg h]
    simp [List.mem_append]

theorem alLookup_replace_ne (l : List (Nat × α)) (k : Nat) (v : α) (k' : Nat) (h : k' ≠ k) :
    alLookup (l.map (fun kv => if kv.1 == k then (k, v) else kv)) k' = alLookup l k' := by
  induction l with
  | nil => rfl
  | cons kv rest ih =>
    simp only [List.map_cons]
    cases hh : (kv.1 == k) with
    | true =>
      have hk : kv.1 = k := beq_iff_eq.mp hh
      simp only [hh, if_true]
      rw [alLookup_cons, alLookup_cons, ih]
      have e1 : (k == k') = false := beq_eq_false_iff_ne.mpr (Ne.symm h)
      have e2 : (kv.1 == k') = false := by rw [hk]; exact e1
      simp [e1, e2]
    | false =>
      simp only [hh, Bool.false_eq_true, if_false]
      rw [alLookup_cons, alLookup_cons, ih]

theorem alLookup_append_single_ne (l : List (Nat × α)) (k : Nat) (v : α) (k' : Nat)
    (h : k' ≠ k) : alLookup (l ++ [(k, v)]) k' = alLookup l k' := by
  induction l with
  | nil =>
    have e1 : (k == k') = false := beq_eq_false_iff_ne.mpr (Ne.symm h)
    simp [alLookup, List.find?, e1]
  | cons kv rest ih =>
    rw [List.cons_append, alLookup_cons, alLookup_cons, ih]

theorem alLookup_alInsert_ne (l : List (Nat × α)) (k : Nat) (v : α) (k' : Nat) (h : k' ≠ k) :
    alLookup (alInsert l k v) k' = alLookup l k' := by
  unfold alInsert
  by_cases hc : l.any (fun kv => kv.1 == k) = true
  · rw [if_pos hc]
    exact alLookup_replace_ne l k v k' h
  · rw [if_neg hc]
    exact alLookup_append_single_ne l k v k' h

/-! ## Helper lemmas about the tracker -/

theorem pt_start_tracking_snd (env : List OsProc) (now : Nat)
    (tracked : List (Nat × TrackedInfo)) (sid : Nat) (e n : String) :
    (pt_start_tracking env now tracked sid e n).2 = (resolve_process env e).isSome := by
  unfold pt_start_tracking
  cases resolve_process env e <;> rfl

theorem pt_start_tracking_fst_of_none (env : List OsProc) (now : Nat)
    (tracked : List (Nat × TrackedInfo)) (sid : Nat) (e n : String)
    (h : (resolve_process env e).isSome = false) :
    (pt_start_tracking env now tracked sid e n).1 = tracked := by
  unfold pt_start_tracking
  cases hr : resolve_process env e with
  | none => rfl
  | some p => rw [hr] at h; cases h

theorem alContains_pt_start_tracking (env : List OsProc) (now : Nat)
    (tracked : List (Nat × TrackedInfo)) (sid : Nat) (e n : String) (k : Nat) :
    alContains (pt_start_tracking env now tracked sid e n).1 k =
      (alContains tracked k || ((resolve_process env e).isSome && k == sid)) := by
  unfold pt_start_tracking
  cases resolve_process env e with
  | none => simp
  | some p => simp [alContains_alInsert]

theorem alLookup_pt_start_tracking_ne (env : List OsProc) (now : Nat)
    (tracked : List (Nat × TrackedInfo)) (sid : Nat) (e n : String) (k : Nat)
    (h : k ≠ sid) :
    alLookup (pt_start_tracking env now tracked sid e n).1 k = alLookup tracked k := by
  unfold pt_start_tracking
  cases resolve_process env e with
  | none => rfl
  | some p => exact alLookup_alInsert_ne _ _ _ _ h

theorem pt_get_runtime_of_lookup (env : List OsProc) (now : Nat)
    (tracked : List (Nat × TrackedInfo)) (sid : Nat) (info : TrackedInfo)
    (h : alLookup tracked sid = some info) :
    pt_get_runtime env now tracked sid = now - info.start_time := by
  unfold pt_get_runtime
  rw [h]
  exact ite_self _

theorem pt_get_runtime_of_unknown (env : List OsProc) (now : Nat)
    (tracked : List (Nat × TrackedInfo)) (sid : Nat)
    (h : alLookup tracked sid = none) :
    pt_get_runtime env now tracked sid = 0 := by
  unfold pt_get_runtime
  rw [h]

theorem pt_stop_tracking_fst (env : List OsProc) (now : Nat)
    (tracked : List (Nat × TrackedInfo)) (sid : Nat) :
    (pt_stop_tracking env now tracked sid).1 =
      if alContains tracked sid then alErase tracked sid else tracked := by
  unfold pt_stop_tracking
  by_cases h : alContains tracked sid = true
  · rw [if_pos h, if_pos h]
  · rw [if_neg h, if_neg h]

theorem pt_stop_tracking_snd (env : List OsProc) (now : Nat)
    (tracked : List (Nat × TrackedInfo)) (sid : Nat) :
    (pt_stop_tracking env now tracked sid).2 = pt_get_runtime env now tracked sid := by
  unfold pt_stop_tracking
  by_cases h : alContains tracked sid = true
  · rw [if_pos h]
  · rw [if_neg h]

theorem alContains_pt_stop_tracking_self (env : List OsProc) (now : Nat)
    (tracked : List (Nat × TrackedInfo)) (sid : Nat) :
    alContains (pt_stop_tracking env now tracked sid).1 sid = false := by
  rw [pt_stop_tracking_fst]
  by_cases h : alContains tracked sid = true
  · rw [if_pos h, alContains_alErase]
    simp
  · rw [if_neg h]
    simpa using h

theorem alContains_pt_stop_tracking_mono (env : List OsProc) (now : Nat)
    (tracked : List (Nat × TrackedInfo)) (sid k : Nat)
    (h : alContains (pt_stop_tracking env now tracked sid).1 k = true) :
    alContains tracked k = true := by
  rw [pt_stop_tracking_fst] at h
  by_cases hc : alContains tracked sid = true
  · rw [if_pos hc, alContains_alErase] at h
    exact (Bool.and_eq_true _ _ |>.mp h).1
  · rwa [if_neg hc] at h

theorem alLookup_pt_stop_tracking_ne (env : List OsProc) (now : Nat)
    (tracked : List (Nat × TrackedInfo)) (sid k : Nat) (h : k ≠ sid) :
    alLookup (pt_stop_tracking env now tracked sid).1 k = alLookup tracked k := by
  rw [pt_stop_tracking_fst]
  by_cases hc : alContains tracked sid = true
  · rw [if_pos hc]
    exact alLookup_alErase_ne _ _ _ h
  · rw [if_neg hc]

/-! ## Helper lemmas about notification shapes -/

theorem beq_comm_nat (a b : Nat) : (a == b) = (b == a) := by
  apply bool_eq_of_iff
  simp only [beq_iff_eq]
  exact eq_comm

theorem isNotifFor_mkNotif (ev ev' : String) (sid s : Nat) (rest : List (String × JVal))
    (now : Nat) :
    isNotifFor ev sid (mkNotif ev' (.jobj (("session_id", .jnum s) :: rest)) now) =
      (ev' == ev && s == sid) := by
  simp [isNotifFor, mkNotif, jfield, List.find?]

theorem dataNumIs_runtime_mkNotif (ev : String) (s r n now : Nat) :
    dataNumIs "runtime" n (mkNotif ev
      (.jobj [("session_id", .jnum s), ("runtime", .jnum r)]) now) = (r == n) := by
  simp [dataNumIs, mkNotif, jfield, List.find?]

theorem dataStrIs_reason_mkNotif (ev : String) (s : Nat) (g : String) (now : Nat) :
    dataStrIs "reason" "timeout" (mkNotif ev
      (.jobj [("session_id", .jnum s), ("game_name", .jstr g),
        ("reason", .jstr "timeout")]) now) = true := by
  simp [dataStrIs, mkNotif, jfield, List.find?]

theorem mentionsSession_activeSessionJson (env : List OsProc) (now : Nat)
    (tracked : List (Nat × TrackedInfo)) (kv : Nat × TrackedInfo) (sid : Nat) :
    mentionsSession sid (activeSessionJson env now tracked kv) = (kv.1 == sid) := by
  simp [mentionsSession, activeSessionJson, jfield, List.find?]

theorem mentionsSession_pendingSessionJson (now : Nat) (kv : Nat × PendingInfo) (sid : Nat) :
    mentionsSession sid (pendingSessionJson now kv) = (kv.1 == sid) := by
  simp [mentionsSession, pendingSessionJson, jfield, List.find?]

/-! ## Helper lemmas about the pending-tick loops -/

theorem cps_started_loop_count (now : Nat) (sid : Nat) :
    ∀ (ss : List (Nat × String)) (pending : List (Nat × PendingInfo)),
    ((cps_started_loop now ss pending).2.filter (isNotifFor "tracking_started" sid)).length =
      ss.countP (fun s => s.1 == sid) := by
  intro ss
  induction ss with
  | nil => intro pending; rfl
  | cons s rest ih =>
    intro pending
    obtain ⟨sid0, name0⟩ := s
    simp only [cps_started_loop, List.filter_cons, List.countP_cons]
    rw [isNotifFor_mkNotif]
    cases h : (sid0 == sid) with
    | true => simp [ih, h]
    | false => simp [ih, h]

theorem cps_started_loop_no_failed (now : Nat) (sid : Nat) :
    ∀ (ss : List (Nat × String)) (pending : List (Nat × PendingInfo)),
    ((cps_started_loop now ss pending).2.filter
      (fun j => isNotifFor "tracking_failed" sid j && dataStrIs "reason" "timeout" j)).length
      = 0 := by
  intro ss
  induction ss with
  | nil => intro pending; rfl
  | cons s rest ih =>
    intro pending
    obtain ⟨sid0, name0⟩ := s
    simp only [cps_started_loop, List.filter_cons]
    have hp : (isNotifFor "tracking_failed" sid (mkNotif "tracking_started"
        (.jobj [("session_id", .jnum sid0), ("game_name", .jstr name0)]) now) &&
        dataStrIs "reason" "timeout" (mkNotif "tracking_started"
        (.jobj [("session_id", .jnum sid0), ("game_name", .jstr name0)]) now)) = false := by
      rw [isNotifFor_mkNotif]
      simp
    simp only [hp, Bool.false_eq_true, if_false]
    exact ih _

theorem cps_started_loop_contains (now : Nat) (k : Nat) :
    ∀ (ss : List (Nat × String)) (pending : List (Nat × PendingInfo)),
    alContains (cps_started_loop now ss pending).1 k =
      (alContains pending k && !(ss.any (fun s => s.1 == k))) := by
  intro ss
  induction ss with
  | nil => intro pending; simp [cps_started_loop]
  | cons s rest ih =>
    intro pending
    obtain ⟨sid0, name0⟩ := s
    simp only [cps_started_loop, List.any_cons]
    rw [ih, alContains_alErase]
    cases h : (sid0 == k) with
    | true =>
      have : (k != sid0) = false := by
        have hk : sid0 = k := beq_iff_eq.mp h
        simp [hk]
      simp [this, h]
    | false =>
      have : (k != sid0) = true := by
        have hk : sid0 ≠ k := by
          intro he
          rw [he] at h
          simp at h
        simp [bne_iff_ne]
        exact fun he => hk he.symm
      simp [this, h]

theorem cps_failed_loop_count (now : Nat) (sid : Nat) :
    ∀ (ks : List Nat) (pending : List (Nat × PendingInfo)),
    ((cps_failed_loop now ks pending).2.filter
      (fun j => isNotifFor "tracking_failed" sid j && dataStrIs "reason" "timeout" j)).length
      = ks.count sid := by
  intro ks
  induction ks with
  | nil => intro pending; rfl
  | cons k rest ih =>
    intro pending
    simp only [cps_failed_loop, List.filter_cons]
    have hp : ∀ name, (isNotifFor "tracking_failed" sid (mkNotif "tracking_failed"
        (.jobj [("session_id", .jnum k), ("game_name", .jstr name),
          ("reason", .jstr "timeout")]) now) &&
        dataStrIs "reason" "timeout" (mkNotif "tracking_failed"
        (.jobj [("session_id", .jnum k), ("game_name", .jstr name),
          ("reason", .jstr "timeout")]) now)) = (k == sid) := by
      intro name
      rw [isNotifFor_mkNotif, dataStrIs_reason_mkNotif]
      simp
    rw [List.count_cons]
    cases h : (k == sid) with
    | true =>
      simp only [hp, h, if_true, List.length_cons]
      rw [ih]
    | false =>
      simp only [hp, h, Bool.false_eq_true, if_false]
      rw [ih]
      simp

theorem cps_failed_loop_no_started (now : Nat) (sid : Nat) :
    ∀ (ks : List Nat) (pending : List (Nat × PendingInfo)),
    ((cps_failed_loop now ks pending).2.filter (isNotifFor "tracking_started" sid)).length
      = 0 := by
  intro ks
  induction ks with
  | nil => intro pending; rfl
  | cons k rest ih =>
    intro pending
    simp only [cps_failed_loop, List.filter_cons]
    have hp : ∀ name, isNotifFor "tracking_started" sid (mkNotif "tracking_failed"
        (.jobj [("session_id", .jnum k), ("game_name", .jstr name),
          ("reason", .jstr "timeout")]) now) = false := by
      intro name
      rw [isNotifFor_mkNotif]
      simp
    simp only [hp, Bool.false_eq_true, if_false]
    exact ih _

theorem cps_failed_loop_contains (now : Nat) (k : Nat) :
    ∀ (ks : List Nat) (pending : List (Nat × PendingInfo)),
    alContains (cps_failed_loop now ks pending).1 k =
      (alContains pending k && !(ks.any (fun x => x == k))) := by
  intro ks
  induction ks with
  | nil => intro pending; simp [cps_failed_loop]
  | cons k0 rest ih =>
    intro pending
    simp only [cps_failed_loop, List.any_cons]
    rw [ih, alContains_alErase]
    cases h : (k0 == k) with
    | true =>
      have : (k != k0) = false := by
        have hk : k0 = k := beq_iff_eq.mp h
        simp [hk]
      simp [this, h]
    | false =>
      have : (k != k0) = true := by
        have hk : k0 ≠ k := by
          intro he
          rw [he] at h
          simp at h
        simp only [bne_iff_ne, ne_eq]
        exact fun he => hk he.symm
      simp [this, h]

/-! ## Helper lemmas about the pending scan -/

theorem cps_scan_absent (env : List OsProc) (now : Nat) (sid : Nat) :
    ∀ (pending : List (Nat × PendingInfo)) (tracked : List (Nat × TrackedInfo)),
    alContains pending sid = false →
    ((cps_scan env now pending tracked).started.countP (fun s => s.1 == sid) = 0 ∧
     (cps_scan env now pending tracked).timedOut.count sid = 0 ∧
     alContains (cps_scan env now pending tracked).tracked sid = alContains tracked sid) := by
  intro pending
  induction pending with
  | nil => intro tracked _; exact ⟨rfl, rfl, rfl⟩
  | cons kv rest ih =>
    intro tracked h
    obtain ⟨k, i⟩ := kv
    rw [alContains_cons] at h
    have hk : (k == sid) = false := by
      cases hkk : (k == sid) with
      | true => rw [hkk] at h; simp at h
      | false => rfl
    have hrest : alContains rest sid = false := by
      cases hr : alContains rest sid with
      | true => rw [hr] at h; simp at h
      | false => rfl
    simp only [cps_scan]
    by_cases ht : now - i.start_time > i.timeout
    · rw [if_pos ht]
      obtain ⟨h1, h2, h3⟩ := ih tracked hrest
      refine ⟨h1, ?_, h3⟩
      rw [List.count_cons, h2, hk]
      simp
    · rw [if_neg ht]
      obtain ⟨h1, h2, h3⟩ := ih (pt_start_tracking env now tracked k i.params.exe_path
        i.params.game_name).1 hrest
      have htr : alContains (pt_start_tracking env now tracked k i.params.exe_path
          i.params.game_name).1 sid = alContains tracked sid := by
        rw [alContains_pt_start_tracking]
        rw [beq_comm_nat k sid] at hk
        simp [hk]
      cases hs : (pt_start_tracking env now tracked k i.params.exe_path
          i.params.game_name).2 with
      | true =>
        simp only [hs, if_true]
        refine ⟨?_, h2, by rw [h3, htr]⟩
        rw [List.countP_cons, h1, hk]
        simp
      | false =>
        simp only [hs, Bool.false_eq_true, if_false]
        exact ⟨h1, h2, by rw [h3, htr]⟩

theorem alContains_eq_false_of_not_mem (l : List (Nat × α)) (k : Nat)
    (h : k ∉ l.map Prod.fst) : alContains l k = false := by
  cases hc : alContains l k with
  | false => rfl
  | true => exact absurd ((alContains_iff_mem_keys l k).mp hc) h

theorem cps_scan_timeout_hit (env : List OsProc) (now : Nat) (sid : Nat) (info : PendingInfo) :
    ∀ (pending : List (Nat × PendingInfo)) (tracked : List (Nat × TrackedInfo)),
    (pending.map Prod.fst).Nodup → alLookup pending sid = some info →
    now - info.start_time > info.timeout →
    ((cps_scan env now pending tracked).started.countP (fun s => s.1 == sid) = 0 ∧
     (cps_scan env now pending tracked).timedOut.count sid = 1 ∧
     alContains (cps_scan env now pending tracked).tracked sid = alContains tracked sid) := by
  intro pending
  induction pending with
  | nil =>
    intro tracked _ hlk _
    simp [alLookup] at hlk
  | cons kv rest ih =>
    intro tracked hnd hlk ht
    obtain ⟨k, i⟩ := kv
    rw [alLookup_cons] at hlk
    rw [List.map_cons, List.nodup_cons] at hnd
    by_cases hk : (k == sid) = true
    · have hkk : k = sid := beq_iff_eq.mp hk
      rw [if_pos hk] at hlk
      have hi : i = info := by
        injection hlk
      subst hi
      subst hkk
      have hrest : alContains rest k = false :=
        alContains_eq_false_of_not_mem rest k hnd.1
      obtain ⟨h1, h2, h3⟩ := cps_scan_absent env now k rest tracked hrest
      simp only [cps_scan]
      rw [if_pos ht]
      refine ⟨h1, ?_, h3⟩
      rw [List.count_cons, h2]
      simp
    · rw [if_neg hk] at hlk
      have hkne : (k == sid) = false := by
        cases hc : (k == sid) with
        | true => exact absurd hc hk
        | false => rfl
      simp only [cps_scan]
      by_cases hto : now - i.start_time > i.timeout
      · rw [if_pos hto]
        obtain ⟨h1, h2, h3⟩ := ih tracked hnd.2 hlk ht
        refine ⟨h1, ?_, h3⟩
        rw [List.count_cons, h2, hkne]
        simp
      · rw [if_neg hto]
        obtain ⟨h1, h2, h3⟩ := ih (pt_start_tracking env now tracked k i.params.exe_path
          i.params.game_name).1 hnd.2 hlk ht
        have htr : alContains (pt_start_tracking env now tracked k i.params.exe_path
            i.params.game_name).1 sid = alContains tracked sid := by
          rw [alContains_pt_start_tracking]
          rw [beq_comm_nat k sid] at hkne
          simp [hkne]
        cases hs : (pt_start_tracking env now tracked k i.params.exe_path
            i.params.game_name).2 with
        | true =>
          simp only [hs, if_true]
          refine ⟨?_, h2, by rw [h3, htr]⟩
          rw [List.countP_cons, h1, hkne]
          simp
        | false =>
          simp only [hs, Bool.false_eq_true, if_false]
          exact ⟨h1, h2, by rw [h3, htr]⟩

theorem cps_scan_start_hit (env : List OsProc) (now : Nat) (sid : Nat) (info : PendingInfo) :
    ∀ (pending : List (Nat × PendingInfo)) (tracked : List (Nat × TrackedInfo)),
    (pending.map Prod.fst).Nodup → alLookup pending sid = some info →
    ¬(now - info.start_time > info.timeout) →
    (resolve_process env info.params.exe_path).isSome = true →
    ((cps_scan env now pending tracked).started.countP (fun s => s.1 == sid) = 1 ∧
     (cps_scan env now pending tracked).timedOut.count sid = 0 ∧
     alContains (cps_scan env now pending tracked).tracked sid = true) := by
  intro pending
  induction pending with
  | nil =>
    intro tracked _ hlk _ _
    simp [alLookup] at hlk
  | cons kv rest ih =>
    intro tracked hnd hlk ht hres
    obtain ⟨k, i⟩ := kv
    rw [alLookup_cons] at hlk
    rw [List.map_cons, List.nodup_cons] at hnd
    by_cases hk : (k == sid) = true
    · have hkk : k = sid := beq_iff_eq.mp hk
      rw [if_pos hk] at hlk
      have hi : i = info := by
        injection hlk
      subst hi
      subst hkk
      have hrest : alContains rest k = false :=
        alContains_eq_false_of_not_mem rest k hnd.1
      simp only [cps_scan]
      rw [if_neg ht]
      have hsnd : (pt_start_tracking env now tracked k i.params.exe_path
          i.params.game_name).2 = true := by
        rw [pt_start_tracking_snd]
        exact hres
      obtain ⟨h1, h2, h3⟩ := cps_scan_absent env now k rest
        (pt_start_tracking env now tracked k i.params.exe_path i.params.game_name).1 hrest
      simp only [hsnd, if_true]
      refine ⟨?_, h2, ?_⟩
      · rw [List.countP_cons, h1]
        simp
      · rw [h3, alContains_pt_start_tracking, hres]
        simp
    · rw [if_neg hk] at hlk
      have hkne : (k == sid) = false := by
        cases hc : (k == sid) with
        | true => exact absurd hc hk
        | false => rfl
      simp only [cps_scan]
      by_cases hto : now - i.start_time > i.timeout
      · rw [if_pos hto]
        obtain ⟨h1, h2, h3⟩ := ih tracked hnd.2 hlk ht hres
        refine ⟨h1, ?_, h3⟩
        rw [List.count_cons, h2, hkne]
        simp
      · rw [if_neg hto]
        obtain ⟨h1, h2, h3⟩ := ih (pt_start_tracking env now tracked k i.params.exe_path
          i.params.game_name).1 hnd.2 hlk ht hres
        cases hs : (pt_start_tracking env now tracked k i.params.exe_path
            i.params.game_name).2 with
        | true =>
          simp only [hs, if_true]
          refine ⟨?_, h2, h3⟩
          rw [List.countP_cons, h1, hkne]
          simp
        | false =>
          simp only [hs, Bool.false_eq_true, if_false]
          exact ⟨h1, h2, h3⟩

theorem cps_scan_tracked_sub (env : List OsProc) (now : Nat) (k : Nat) :
    ∀ (pending : List (Nat × PendingInfo)) (tracked : List (Nat × TrackedInfo)),
    alContains (cps_scan env now pending tracked).tracked k = true →
    (alContains tracked k = true ∨
     (cps_scan env now pending tracked).started.any (fun s => s.1 == k) = true) := by
  intro pending
  induction pending with
  | nil =>
    intro tracked h
    exact Or.inl h
  | cons kv rest ih =>
    intro tracked h
    obtain ⟨k0, i⟩ := kv
    simp only [cps_scan] at h ⊢
    by_cases hto : now - i.start_time > i.timeout
    · rw [if_pos hto] at h ⊢
      exact ih tracked h
    · rw [if_neg hto] at h ⊢
      cases hs : (pt_start_tracking env now tracked k0 i.params.exe_path
          i.params.game_name).2 with
      | true =>
        simp only [hs, if_true] at h ⊢
        rcases ih _ h with hin | hst
        · rw [alContains_pt_start_tracking] at hin
          cases hor : alContains tracked k with
          | true => exact Or.inl rfl
          | false =>
            rw [hor] at hin
            simp only [Bool.false_or, Bool.and_eq_true] at hin
            refine Or.inr ?_
            rw [List.any_cons]
            rw [beq_comm_nat k k0] at hin
            simp [hin.2]
        · refine Or.inr ?_
          rw [List.any_cons, hst]
          simp
      | false =>
        simp only [hs, Bool.false_eq_true, if_false] at h ⊢
        have hfst : (pt_start_tracking env now tracked k0 i.params.exe_path
            i.params.game_name).1 = tracked := by
          apply pt_start_tracking_fst_of_none
          rw [← pt_start_tracking_snd env now tracked k0 i.params.exe_path i.params.game_name]
          exact hs
        rw [hfst] at h ⊢
        exact ih tracked h

/-! ## Helper lemmas about the liveness sweep -/

theorem sweep_loop_absent (env : List OsProc) (now sid rt : Nat) :
    ∀ (status : List (Nat × Bool)) (tracked : List (Nat × TrackedInfo)),
    sid ∉ status.map Prod.fst →
    (((sweep_loop env now status tracked).2.filter
      (fun j => isNotifFor "process_ended" sid j && dataNumIs "runtime" rt j)).length = 0 ∧
     alContains (sweep_loop env now status tracked).1 sid = alContains tracked sid) := by
  intro status
  induction status with
  | nil => intro tracked _; exact ⟨rfl, rfl⟩
  | cons su rest ih =>
    intro tracked hmem
    obtain ⟨k, b⟩ := su
    rw [List.map_cons, List.mem_cons] at hmem
    push_neg at hmem
    have hk : k ≠ sid := fun he => hmem.1 he.symm
    cases b with
    | true =>
      simp only [sweep_loop]
      exact ih tracked hmem.2
    | false =>
      simp only [sweep_loop, List.filter_cons]
      have hp : (isNotifFor "process_ended" sid (mkNotif "process_ended"
          (.jobj [("session_id", .jnum k),
            ("runtime", .jnum (pt_get_runtime env now tracked k))]) now) &&
          dataNumIs "runtime" rt (mkNotif "process_ended"
          (.jobj [("session_id", .jnum k),
            ("runtime", .jnum (pt_get_runtime env now tracked k))]) now)) = false := by
        rw [isNotifFor_mkNotif]
        have : (k == sid) = false := beq_eq_false_iff_ne.mpr hk
        simp [this]
      simp only [hp, Bool.false_eq_true, if_false]
      obtain ⟨h1, h2⟩ := ih (pt_stop_tracking env now tracked k).1 hmem.2
      refine ⟨h1, ?_⟩
      rw [h2, pt_stop_tracking_fst]
      by_cases hc : alContains tracked k = true
      · rw [if_pos hc, alContains_alErase]
        have : (sid != k) = true := by
          simp only [bne_iff_ne, ne_eq]
          exact fun he => hk he.symm
        simp [this]
      · rw [if_neg hc]

theorem sweep_loop_hit (env : List OsProc) (now sid : Nat) (info : TrackedInfo) :
    ∀ (status : List (Nat × Bool)) (tracked : List (Nat × TrackedInfo)),
    (status.map Prod.fst).Nodup → (sid, false) ∈ status →
    alLookup tracked sid = some info →
    (((sweep_loop env now status tracked).2.filter
      (fun j => isNotifFor "process_ended" sid j &&
        dataNumIs "runtime" (now - info.start_time) j)).length = 1 ∧
     alContains (sweep_loop env now status tracked).1 sid = false) := by
  intro status
  induction status with
  | nil =>
    intro tracked _ hmem _
    simp at hmem
  | cons su rest ih =>
    intro tracked hnd hmem hlk
    obtain ⟨k, b⟩ := su
    rw [List.map_cons, List.nodup_cons] at hnd
    by_cases hk : k = sid
    · subst hk
      have hb : b = false := by
        rcases List.mem_cons.mp hmem with heq | hrest
        · exact (Prod.mk.injEq _ _ _ _ |>.mp heq.symm).2
        · exact absurd (List.mem_map.mpr ⟨(k, false), hrest, rfl⟩) hnd.1
      subst hb
      simp only [sweep_loop, List.filter_cons]
      rw [pt_get_runtime_of_lookup env now tracked k info hlk]
      have hp : (isNotifFor "process_ended" k (mkNotif "process_ended"
          (.jobj [("session_id", .jnum k),
            ("runtime", .jnum (now - info.start_time))]) now) &&
          dataNumIs "runtime" (now - info.start_time) (mkNotif "process_ended"
          (.jobj [("session_id", .jnum k),
            ("runtime", .jnum (now - info.start_time))]) now)) = true := by
        rw [isNotifFor_mkNotif, dataNumIs_runtime_mkNotif]
        simp
      simp only [hp, if_true, List.length_cons]
      have hnotin : k ∉ rest.map Prod.fst := hnd.1
      obtain ⟨h1, h2⟩ := sweep_loop_absent env now k (now - info.start_time) rest
        (pt_stop_tracking env now tracked k).1 hnotin
      refine ⟨by rw [h1], ?_⟩
      rw [h2]
      exact alContains_pt_stop_tracking_self env now tracked k
    · have hmem2 : (sid, false) ∈ rest := by
        rcases List.mem_cons.mp hmem with heq | hrest
        · exact absurd (Prod.mk.injEq _ _ _ _ |>.mp heq.symm).1 hk
        · exact hrest
      cases b with
      | true =>
        simp only [sweep_loop]
        exact ih tracked hnd.2 hmem2 hlk
      | false =>
        simp only [sweep_loop, List.filter_cons]
        have hp : (isNotifFor "process_ended" sid (mkNotif "process_ended"
            (.jobj [("session_id", .jnum k),
              ("runtime", .jnum (pt_get_runtime env now tracked k))]) now) &&
            dataNumIs "runtime" (now - info.start_time) (mkNotif "process_ended"
            (.jobj [("session_id", .jnum k),
              ("runtime", .jnum (pt_get_runtime env now tracked k))]) now)) = false := by
          rw [isNotifFor_mkNotif]
          have : (k == sid) = false := beq_eq_false_iff_ne.mpr hk
          simp [this]
        simp only [hp, Bool.false_eq_true, if_false]
        have hlk2 : alLookup (pt_stop_tracking env now tracked k).1 sid = some info := by
          rw [alLookup_pt_stop_tracking_ne env now tracked k sid (fun he => hk he.symm)]
          exact hlk
        exact ih (pt_stop_tracking env now tracked k).1 hnd.2 hmem2 hlk2

theorem sweep_loop_tracked_mono (env : List OsProc) (now : Nat) :
    ∀ (status : List (Nat × Bool)) (tracked : List (Nat × TrackedInfo)) (k : Nat),
    alContains (sweep_loop env now status tracked).1 k = true →
    alContains tracked k = true := by
  intro status
  induction status with
  | nil => intro tracked k h; exact h
  | cons su rest ih =>
    intro tracked k h
    obtain ⟨k0, b⟩ := su
    cases b with
    | true =>
      simp only [sweep_loop] at h
      exact ih tracked k h
    | false =>
      simp only [sweep_loop] at h
      exact alContains_pt_stop_tracking_mono env now tracked k0 k
        (ih (pt_stop_tracking env now tracked k0).1 k h)

/-! ## Status-list helpers (`check_all_processes` output) -/

theorem map_fst_pair (g : (Nat × β) → Bool) :
    ∀ (l : List (Nat × β)), (l.map (fun kv => (kv.1, g kv))).map Prod.fst = l.map Prod.fst := by
  intro l
  induction l with
  | nil => rfl
  | cons kv rest ih => simp only [List.map_cons, ih]

theorem status_keys (env : List OsProc) (tracked : List (Nat × TrackedInfo)) :
    ((pt_check_all_processes env tracked).2.map Prod.fst) = tracked.map Prod.fst := by
  simp only [pt_check_all_processes]
  exact map_fst_pair _ tracked

theorem mem_status_of_lookup (env : List OsProc) (tracked : List (Nat × TrackedInfo))
    (sid : Nat) (info : TrackedInfo) (h : alLookup tracked sid = some info) :
    (sid, pt_is_process_running env tracked sid) ∈ (pt_check_all_processes env tracked).2 := by
  have hc : alContains tracked sid = true := by
    rw [alContains_eq_isSome_alLookup, h]
    rfl
  obtain ⟨kv, hmem, hk⟩ : ∃ kv ∈ tracked, kv.1 = sid := by
    have := (alContains_iff_mem_keys tracked sid).mp hc
    obtain ⟨kv, hmem, hk⟩ := List.mem_map.mp this
    exact ⟨kv, hmem, hk⟩
  simp only [pt_check_all_processes]
  exact List.mem_map.mpr ⟨kv, hmem, by rw [hk]⟩

/-! ## Generic counting helpers -/

theorem any_of_countP_ne_zero (p : α → Bool) :
    ∀ (l : List α), l.countP p ≠ 0 → l.any p = true := by
  intro l
  induction l with
  | nil => intro h; exact absurd rfl h
  | cons x rest ih =>
    intro h
    rw [List.countP_cons] at h
    rw [List.any_cons]
    cases hx : p x with
    | true => simp
    | false =>
      simp only [hx, Bool.false_or]
      apply ih
      simpa [hx] using h

theorem any_of_count_ne_zero (a : Nat) :
    ∀ (l : List Nat), l.count a ≠ 0 → l.any (fun x => x == a) = true := by
  intro l
  induction l with
  | nil => intro h; exact absurd rfl h
  | cons x rest ih =>
    intro h
    rw [List.count_cons] at h
    rw [List.any_cons]
    cases hx : (x == a) with
    | true => simp
    | false =>
      simp only [hx, Bool.false_or]
      apply ih
      simpa [hx] using h

/-! ## The disjointness invariant -/

theorem alContains_exists (l : List (Nat × α)) (k : Nat) :
    alContains l k = true ↔ ∃ kv ∈ l, kv.1 = k := by
  simp [alContains, List.any_eq_true, beq_iff_eq]

theorem disjointMaps_iff (st : SvcState) :
    disjointMaps st = true ↔
      ∀ k, alContains st.tracked k = true → alContains st.pending k = false := by
  simp only [disjointMaps, List.all_eq_true]
  constructor
  · intro h k hk
    obtain ⟨kv, hmem, hkk⟩ := (alContains_exists st.tracked k).mp hk
    have := h kv hmem
    rw [← hkk]
    cases hc : alContains st.pending kv.1 with
    | false => rfl
    | true => rw [hc] at this; cases this
  · intro h kv hmem
    have hk : alContains st.tracked kv.1 = true :=
      (alContains_exists st.tracked kv.1).mpr ⟨kv, hmem, rfl⟩
    rw [h kv.1 hk]
    rfl

theorem handle_start_tracking_fst_tracked (env : List OsProc) (now : Nat) (st : SvcState)
    (p : StartParams) :
    (handle_start_tracking env now st p).1.tracked =
      (pt_start_tracking env now st.tracked p.session_id p.exe_path p.game_name).1 := by
  simp only [handle_start_tracking]
  split
  · rfl
  · split <;> rfl

theorem handle_start_tracking_fst_pending (env : List OsProc) (now : Nat) (st : SvcState)
    (p : StartParams) :
    (handle_start_tracking env now st p).1.pending =
      (if (pt_start_tracking env now st.tracked p.session_id p.exe_path p.game_name).2 then
        st.pending
      else if p.wait_for_process then
        alInsert st.pending p.session_id ⟨p, now, p.timeout⟩
      else st.pending) := by
  simp only [handle_start_tracking]
  split
  · rfl
  · split <;> rfl

theorem handle_stop_tracking_fst (env : List OsProc) (now : Nat) (st : SvcState) (sid : Nat) :
    (handle_stop_tracking env now st sid).1 =
      (if alContains st.pending sid then { st with pending := alErase st.pending sid }
       else { st with tracked := (pt_stop_tracking env now st.tracked sid).1 }) := by
  simp only [handle_stop_tracking]
  split <;> rfl

theorem check_pending_sessions_fst_tracked (env : List OsProc) (now : Nat) (st : SvcState) :
    (check_pending_sessions env now st).1.tracked =
      (cps_scan env now st.pending st.tracked).tracked := rfl

theorem check_pending_sessions_fst_pending (env : List OsProc) (now : Nat) (st : SvcState) :
    (check_pending_sessions env now st).1.pending =
      (cps_failed_loop now (cps_scan env now st.pending st.tracked).timedOut
        (cps_started_loop now (cps_scan env now st.pending st.tracked).started
          st.pending).1).1 := rfl

theorem disjoint_preserved (st : SvcState) (op : Op) (hd : disjointMaps st = true)
    (hf : freshOp st op = true) : disjointMaps (applyOp st op) = true := by
  rw [disjointMaps_iff] at hd ⊢
  cases op with
  | opStart env now p =>
    intro k hk
    simp only [applyOp] at hk ⊢
    rw [handle_start_tracking_fst_tracked, alContains_pt_start_tracking] at hk
    rw [handle_start_tracking_fst_pending]
    simp only [freshOp, Bool.and_eq_true, Bool.not_eq_true'] at hf
    cases hs : (pt_start_tracking env now st.tracked p.session_id p.exe_path p.game_name).2 with
    | true =>
      rw [if_pos rfl]
      rcases Bool.or_eq_true _ _ |>.mp hk with hin | hboth
      · exact hd k hin
      · have hks : k = p.session_id :=
          beq_iff_eq.mp (Bool.and_eq_true _ _ |>.mp hboth).2
        rw [hks]
        exact hf.2
    | false =>
      have hnos : (resolve_process env p.exe_path).isSome = false := by
        rw [← pt_start_tracking_snd env now st.tracked p.session_id p.exe_path p.game_name]
        exact hs
      rw [hnos] at hk
      simp only [Bool.false_and, Bool.or_false] at hk
      rw [if_neg (show ¬(false = true) by simp)]
      by_cases hw : p.wait_for_process = true
      · rw [if_pos hw, alContains_alInsert]
        have h1 : alContains st.pending k = false := hd k hk
        have h2 : (k == p.session_id) = false := by
          apply beq_eq_false_iff_ne.mpr
          intro he
          rw [he] at hk
          rw [hk] at hf
          exact Bool.noConfusion hf.1
        rw [h1, h2]
        rfl
      · rw [if_neg hw]
        exact hd k hk
  | opStop env now sid =>
    intro k hk
    simp only [applyOp] at hk ⊢
    rw [handle_stop_tracking_fst] at hk ⊢
    by_cases hc : alContains st.pending sid = true
    · rw [if_pos hc] at hk ⊢
      simp only at hk ⊢
      rw [alContains_alErase]
      rw [hd k hk]
      rfl
    · rw [if_neg hc] at hk ⊢
      simp only at hk ⊢
      exact hd k (alContains_pt_stop_tracking_mono env now st.tracked sid k hk)
  | opSweep env now =>
    intro k hk
    simp only [applyOp] at hk ⊢
    exact hd k (sweep_loop_tracked_mono env now _ st.tracked k hk)
  | opPendingTick env now =>
    intro k hk
    simp only [applyOp] at hk ⊢
    rw [check_pending_sessions_fst_tracked] at hk
    rw [check_pending_sessions_fst_pending, cps_failed_loop_contains,
      cps_started_loop_contains]
    rcases cps_scan_tracked_sub env now k st.pending st.tracked hk with hin | hst
    · rw [hd k hin]
      rfl
    · rw [hst]
      simp

theorem freshRun_disjoint :
    ∀ (ops : List Op) (st : SvcState), disjointMaps st = true → freshRun st ops = true →
    disjointMaps (runOps st ops) = true := by
  intro ops
  induction ops with
  | nil => intro st h _; exact h
  | cons op rest ih =>
    intro st h hf
    simp only [freshRun, Bool.and_eq_true] at hf
    show disjointMaps (runOps (applyOp st op) rest) = true
    exact ih (applyOp st op) (disjoint_preserved st op h hf.1) hf.2

theorem alLookup_eq_none_of_not_contains (l : List (Nat × α)) (k : Nat)
    (h : alContains l k = false) : alLookup l k = none := by
  rw [alContains_eq_isSome_alLookup] at h
  cases hl : alLookup l k with
  | none => rfl
  | some v => rw [hl] at h; cases h

theorem check_pending_sessions_snd (env : List OsProc) (now : Nat) (st : SvcState) :
    (check_pending_sessions env now st).2 =
      (cps_started_loop now (cps_scan env now st.pending st.tracked).started st.pending).2 ++
      (cps_failed_loop now (cps_scan env now st.pending st.tracked).timedOut
        (cps_started_loop now (cps_scan env now st.pending st.tracked).started
          st.pending).1).2 := rfl

theorem snapshot_no_mention (env : List OsProc) (now : Nat) (st : SvcState) (sid : Nat)
    (h1 : alContains st.tracked sid = false) (h2 : alContains st.pending sid = false) :
    (snapshotSessions env now st).all (fun j => !mentionsSession sid j) = true := by
  rw [snapshotSessions, List.all_append]
  apply Bool.and_eq_true _ _ |>.mpr
  constructor
  · rw [List.all_eq_true]
    intro j hj
    obtain ⟨kv, hkv, rfl⟩ := List.mem_map.mp hj
    have hmem : kv ∈ st.tracked := List.mem_of_mem_filter hkv
    rw [mentionsSession_activeSessionJson]
    have : (kv.1 == sid) = false := by
      apply beq_eq_false_iff_ne.mpr
      intro he
      have : alContains st.tracked sid = true :=
        (alContains_exists st.tracked sid).mpr ⟨kv, hmem, he⟩
      rw [this] at h1
      cases h1
    rw [this]
    rfl
  · rw [List.all_eq_true]
    intro j hj
    obtain ⟨kv, hkv, rfl⟩ := List.mem_map.mp hj
    rw [mentionsSession_pendingSessionJson]
    have : (kv.1 == sid) = false := by
      apply beq_eq_false_iff_ne.mpr
      intro he
      have : alContains st.pending sid = true :=
        (alContains_exists st.pending sid).mpr ⟨kv, hkv, he⟩
      rw [this] at h2
      cases h2
    rw [this]
    rfl

theorem handle_start_tracking_fst (env : List OsProc) (now : Nat) (st : SvcState)
    (p : StartParams) :
    (handle_start_tracking env now st p).1 =
      { st with
        tracked := (pt_start_tracking env now st.tracked p.session_id p.exe_path
          p.game_name).1,
        pending :=
          if (pt_start_tracking env now st.tracked p.session_id p.exe_path p.game_name).2 then
            st.pending
          else if p.wait_for_process then
            alInsert st.pending p.session_id ⟨p, now, p.timeout⟩
          else st.pending } := by
  simp only [handle_start_tracking]
  split
  · rfl
  · split <;> rfl

theorem handle_start_tracking_snd (env : List OsProc) (now : Nat) (st : SvcState)
    (p : StartParams) :
    (handle_start_tracking env now st p).2 =
      (if (pt_start_tracking env now st.tracked p.session_id p.exe_path p.game_name).2 then
        [mkResponse true (.jobj [("tracking_started", .jbool true),
          ("session_id", .jnum p.session_id), ("game_name", .jstr p.game_name)]) .jnull now]
      else if p.wait_for_process then
        [mkResponse true (.jobj [("tracking_started", .jbool false), ("pending", .jbool true),
          ("session_id", .jnum p.session_id), ("game_name", .jstr p.game_name),
          ("message", .jstr "Waiting for process to start")]) .jnull now]
      else
        [mkResponse false .jnull (.jstr ("Process not found: " ++ p.exe_path)) now]) := by
  simp only [handle_start_tracking]
  split
  · rfl
  · split <;> rfl

theorem handle_stop_tracking_snd (env : List OsProc) (now : Nat) (st : SvcState) (sid : Nat) :
    (handle_stop_tracking env now st sid).2 =
      (if alContains st.pending sid then
        [mkResponse true (.jobj [("session_id", .jnum sid), ("runtime", .jnum 0),
          ("message", .jstr "Pending tracking cancelled")]) .jnull now]
      else
        [mkResponse true (.jobj [("session_id", .jnum sid),
          ("runtime", .jnum (pt_stop_tracking env now st.tracked sid).2)]) .jnull now]) := by
  simp only [handle_stop_tracking]
  split <;> rfl

theorem handle_stop_tracking_unknown (env : List OsProc) (now : Nat) (st : SvcState)
    (sid : Nat) (h1 : alContains st.tracked sid = false)
    (h2 : alContains st.pending sid = false) :
    handle_stop_tracking env now st sid =
      (st, [mkResponse true (.jobj [("session_id", .jnum sid),
        ("runtime", .jnum 0)]) .jnull now]) := by
  simp only [handle_stop_tracking]
  rw [if_neg (by simp [h2])]
  have hfst : (pt_stop_tracking env now st.tracked sid).1 = st.tracked := by
    rw [pt_stop_tracking_fst, if_neg (by simp [h1])]
  have hsnd : (pt_stop_tracking env now st.tracked sid).2 = 0 := by
    rw [pt_stop_tracking_snd, pt_get_runtime_of_unknown]
    exact alLookup_eq_none_of_not_contains _ _ h1
  rw [hfst, hsnd]

/-! ## The claims -/

/-- C1 (counterexample): the disjointness invariant fails as stated.  From
the initial state, `start_tracking` for session 1 while the process is
down enqueues it as pending; re-issuing `start_tracking` for the same id
once the process is up registers it as tracked without removing the
pending entry, so session 1 is simultaneously in both maps. -/
theorem C1_disjointness_counterexample :
    alContains (runOps initState opsBoth).tracked 1 = true ∧
    alContains (runOps initState opsBoth).pending 1 = true ∧
    disjointMaps (runOps initState opsBoth) = false := by
  decide

/-- C1 (amended): provided no `start_tracking` command reuses a session id
that is still active or pending (the caller's uniqueness obligation), every
state reachable by `handle_start_tracking`, `handle_stop_tracking`, the
monitor sweep and the pending tick keeps the tracked and pending maps
disjoint. -/
theorem C1_disjointness_invariant (ops : List Op) (hf : freshRun initState ops = true) :
    disjointMaps (runOps initState ops) = true :=
  freshRun_disjoint ops initState rfl hf

/-- C1 witness: a concrete fresh operation sequence satisfying the
invariant. -/
theorem C1_disjointness_invariant_witness :
    freshRun initState opsFresh = true ∧ disjointMaps (runOps initState opsFresh) = true :=
  ⟨by decide, C1_disjointness_invariant opsFresh (by decide)⟩

/-- C2 (counterexample): once the process has stopped, `get_runtime` does
not freeze: with the process gone (is_running false), calls at t=100 and
t=110 return 90 and 100 — the value keeps growing, so a subsequent call
does not return the previously computed value. -/
theorem C2_runtime_frozen_counterexample :
    alLookup deadTracked 1 = some deadInfo ∧
    pt_is_process_running envEmpty deadTracked 1 = false ∧
    pt_get_runtime envEmpty 100 deadTracked 1 = 90 ∧
    pt_get_runtime envEmpty 110 deadTracked 1 = 100 ∧
    ¬(pt_get_runtime envEmpty 110 deadTracked 1 = pt_get_runtime envEmpty 100 deadTracked 1) := by
  decide

/-- C2 (amended): while a session is present, `get_runtime` returns
`now - start_time` whether or not the process is still running; after the
process stops the value continues to grow until the session is removed (it
is never frozen). -/
theorem C2_runtime_now_minus_start (env : List OsProc) (now : Nat)
    (tracked : List (Nat × TrackedInfo)) (sid : Nat) (info : TrackedInfo)
    (h : alLookup tracked sid = some info) :
    pt_get_runtime env now tracked sid = now - info.start_time :=
  pt_get_runtime_of_lookup env now tracked sid info h

/-- C2 witness. -/
theorem C2_runtime_now_minus_start_witness :
    alLookup deadTracked 1 = some deadInfo ∧
    pt_get_runtime envEmpty 100 deadTracked 1 = 100 - deadInfo.start_time :=
  ⟨rfl, C2_runtime_now_minus_start envEmpty 100 deadTracked 1 deadInfo rfl⟩

/-- C4: `is_process_running` compares the current creation time of the
process at the stored pid against the fingerprint captured at registration
(psutil's `is_running` re-queries the pid and compares creation times);
whenever they differ — the PID was reused by an unrelated process — the
session is reported as not running.  The hypothesis on `info.process` is
exactly the shape of every entry built by `start_tracking`. -/
theorem C4_pid_reuse_not_running (env : List OsProc)
    (tracked : List (Nat × TrackedInfo)) (sid : Nat) (info : TrackedInfo) (p : OsProc)
    (hlk : alLookup tracked sid = some info)
    (hhandle : info.process = ⟨info.pid, info.create_time⟩)
    (hpid : procByPid env info.pid = some p)
    (hct : p.create_time ≠ info.create_time) :
    pt_is_process_running env tracked sid = false := by
  unfold pt_is_process_running psutil_is_running
  rw [hlk]
  dsimp only
  rw [hhandle]
  dsimp only
  rw [hpid]
  dsimp only
  rw [beq_eq_false_iff_ne.mpr hct]
  rfl

/-- C4 witness: pid 7 was reused by an unrelated process (creation time 99
instead of 3); the dead session reports not running. -/
theorem C4_pid_reuse_not_running_witness :
    alLookup deadTracked 1 = some deadInfo ∧
    procByPid envReused deadInfo.pid = some reusedProc ∧
    reusedProc.create_time ≠ deadInfo.create_time ∧
    pt_is_process_running envReused deadTracked 1 = false :=
  ⟨rfl, rfl, by decide,
    C4_pid_reuse_not_running envReused deadTracked 1 deadInfo reusedProc rfl rfl rfl
      (by decide)⟩

/-- C5: when a pending session's target process is resolvable at a pending
tick that falls within the timeout budget, the tick moves the session to
the tracked (ACTIVE) map, removes it from the pending map, and emits
exactly one `tracking_started` notification for it and no
`tracking_failed`; moreover no later pending tick (the session being gone
from the pending map) ever emits `tracking_failed` for it. -/
theorem C5_pending_resolved_in_time (env : List OsProc) (now : Nat) (st : SvcState)
    (sid : Nat) (info : PendingInfo)
    (hnd : (st.pending.map Prod.fst).Nodup)
    (hlk : alLookup st.pending sid = some info)
    (htime : ¬(now - info.start_time > info.timeout))
    (hres : (resolve_process env info.params.exe_path).isSome = true) :
    ((check_pending_sessions env now st).2.filter
      (isNotifFor "tracking_started" sid)).length = 1 ∧
    ((check_pending_sessions env now st).2.filter
      (fun j => isNotifFor "tracking_failed" sid j &&
        dataStrIs "reason" "timeout" j)).length = 0 ∧
    alContains (check_pending_sessions env now st).1.tracked sid = true ∧
    alContains (check_pending_sessions env now st).1.pending sid = false ∧
    (∀ (env2 : List OsProc) (now2 : Nat) (st2 : SvcState),
      alContains st2.pending sid = false →
      ((check_pending_sessions env2 now2 st2).2.filter
        (fun j => isNotifFor "tracking_failed" sid j &&
          dataStrIs "reason" "timeout" j)).length = 0) := by
  obtain ⟨hcp1, hcp0, htr⟩ :=
    cps_scan_start_hit env now sid info st.pending st.tracked hnd hlk htime hres
  refine ⟨?_, ?_, ?_, ?_, ?_⟩
  · rw [check_pending_sessions_snd, List.filter_append, List.length_append,
      cps_started_loop_count, hcp1, cps_failed_loop_no_started]
  · rw [check_pending_sessions_snd, List.filter_append, List.length_append,
      cps_started_loop_no_failed, cps_failed_loop_count, hcp0]
  · rw [check_pending_sessions_fst_tracked]
    exact htr
  · rw [check_pending_sessions_fst_pending, cps_failed_loop_contains,
      cps_started_loop_contains]
    have hany : (cps_scan env now st.pending st.tracked).started.any
        (fun s => s.1 == sid) = true :=
      any_of_countP_ne_zero _ _ (by rw [hcp1]; exact one_ne_zero)
    rw [hany]
    simp
  · intro env2 now2 st2 hstp
    obtain ⟨_, hto, _⟩ := cps_scan_absent env2 now2 sid st2.pending st2.tracked hstp
    rw [check_pending_sessions_snd, List.filter_append, List.length_append,
      cps_started_loop_no_failed, cps_failed_loop_count, hto]

/-- C5 witness: session 1 pending since t=10, process up at the t=100 tick
(within the 300s budget). -/
theorem C5_pending_resolved_in_time_witness :
    (stPend.pending.map Prod.fst).Nodup ∧
    alLookup stPend.pending 1 = some pendInfoG ∧
    ¬(100 - pendInfoG.start_time > pendInfoG.timeout) ∧
    (resolve_process envUp pendInfoG.params.exe_path).isSome = true ∧
    (((check_pending_sessions envUp 100 stPend).2.filter
      (isNotifFor "tracking_started" 1)).length = 1 ∧
    ((check_pending_sessions envUp 100 stPend).2.filter
      (fun j => isNotifFor "tracking_failed" 1 j &&
        dataStrIs "reason" "timeout" j)).length = 0 ∧
    alContains (check_pending_sessions envUp 100 stPend).1.tracked 1 = true ∧
    alContains (check_pending_sessions envUp 100 stPend).1.pending 1 = false ∧
    (∀ (env2 : List OsProc) (now2 : Nat) (st2 : SvcState),
      alContains st2.pending 1 = false →
      ((check_pending_sessions env2 now2 st2).2.filter
        (fun j => isNotifFor "tracking_failed" 1 j &&
          dataStrIs "reason" "timeout" j)).length = 0)) :=
  ⟨by decide, rfl, by decide, by decide,
    C5_pending_resolved_in_time envUp 100 stPend 1 pendInfoG (by decide) rfl (by decide)
      (by decide)⟩

/-- C6: a pending session that is still unresolved (not tracked) when a
pending tick observes `now - enqueued_at > timeout_seconds` is removed by
that tick, exactly one `tracking_failed` notification with reason
`"timeout"` is emitted for it, and the `get_all_sessions` snapshot of the
resulting state never mentions the session id again. -/
theorem C6_pending_timeout (env : List OsProc) (now : Nat) (st : SvcState)
    (sid : Nat) (info : PendingInfo)
    (hnd : (st.pending.map Prod.fst).Nodup)
    (hlk : alLookup st.pending sid = some info)
    (htime : now - info.start_time > info.timeout)
    (hact : alContains st.tracked sid = false) :
    ((check_pending_sessions env now st).2.filter
      (fun j => isNotifFor "tracking_failed" sid j &&
        dataStrIs "reason" "timeout" j)).length = 1 ∧
    alContains (check_pending_sessions env now st).1.pending sid = false ∧
    alContains (check_pending_sessions env now st).1.tracked sid = false ∧
    (∀ (env2 : List OsProc) (now2 : Nat),
      (snapshotSessions env2 now2 (check_pending_sessions env now st).1).all
        (fun j => !mentionsSession sid j) = true) := by
  obtain ⟨hcp0, hto1, htr⟩ :=
    cps_scan_timeout_hit env now sid info st.pending st.tracked hnd hlk htime
  have hpend : alContains (check_pending_sessions env now st).1.pending sid = false := by
    rw [check_pending_sessions_fst_pending, cps_failed_loop_contains]
    have hany : (cps_scan env now st.pending st.tracked).timedOut.any
        (fun x => x == sid) = true :=
      any_of_count_ne_zero sid _ (by rw [hto1]; exact one_ne_zero)
    rw [hany]
    simp
  have htrk : alContains (check_pending_sessions env now st).1.tracked sid = false := by
    rw [check_pending_sessions_fst_tracked, htr]
    exact hact
  refine ⟨?_, hpend, htrk, ?_⟩
  · rw [check_pending_sessions_snd, List.filter_append, List.length_append,
      cps_started_loop_no_failed, cps_failed_loop_count, hto1]
  · intro env2 now2
    exact snapshot_no_mention env2 now2 _ sid htrk hpend

/-- C6 witness: session 1 pending since t=10 with a 300s budget, tick at
t=400. -/
theorem C6_pending_timeout_witness :
    (stPend.pending.map Prod.fst).Nodup ∧
    alLookup stPend.pending 1 = some pendInfoG ∧
    (400 - pendInfoG.start_time > pendInfoG.timeout) ∧
    alContains stPend.tracked 1 = false ∧
    (((check_pending_sessions envEmpty 400 stPend).2.filter
      (fun j => isNotifFor "tracking_failed" 1 j &&
        dataStrIs "reason" "timeout" j)).length = 1 ∧
    alContains (check_pending_sessions envEmpty 400 stPend).1.pending 1 = false ∧
    alContains (check_pending_sessions envEmpty 400 stPend).1.tracked 1 = false ∧
    (∀ (env2 : List OsProc) (now2 : Nat),
      (snapshotSessions env2 now2 (check_pending_sessions envEmpty 400 stPend).1).all
        (fun j => !mentionsSession 1 j) = true)) :=
  ⟨by decide, rfl, by decide, by decide,
    C6_pending_timeout envEmpty 400 stPend 1 pendInfoG (by decide) rfl (by decide)
      (by decide)⟩

/-- C7: a line that fails to parse as JSON yields exactly one error
response whose error field is `"Invalid JSON: <detail>"`, leaves the whole
service state (both collections and the running flag) unchanged, and a
subsequent valid `ping` answers `pong` exactly as it would have without the
malformed line. -/
theorem C7_invalid_json (env : List OsProc) (now : Nat) (st : SvcState) (detail : String)
    (env2 : List OsProc) (now2 : Nat) :
    process_line env now st (.error detail) =
      (st, [mkResponse false .jnull (.jstr ("Invalid JSON: " ++ detail)) now]) ∧
    (process_line env now st (.error detail)).1 = st ∧
    process_line env2 now2 (process_line env now st (.error detail)).1 (.ok .ping) =
      process_line env2 now2 st (.ok .ping) ∧
    process_line env2 now2 (process_line env now st (.error detail)).1 (.ok .ping) =
      (st, [mkResponse true (.jobj [("message", .jstr "pong")]) .jnull now2]) :=
  ⟨rfl, rfl, rfl, rfl⟩

/-- C8: when process resolution fails for a `start_tracking` command, the
service answers with a success response carrying `pending:true` and
enqueues the session when `wait_for_process`; when waiting was explicitly
disallowed it answers with an error response and leaves both collections
untouched. -/
theorem C8_resolution_failure (env : List OsProc) (now : Nat) (st : SvcState)
    (p : StartParams)
    (hres : (resolve_process env p.exe_path).isSome = false) :
    (p.wait_for_process = true →
      (handle_start_tracking env now st p).1.tracked = st.tracked ∧
      (handle_start_tracking env now st p).1.pending =
        alInsert st.pending p.session_id ⟨p, now, p.timeout⟩ ∧
      alContains (handle_start_tracking env now st p).1.pending p.session_id = true ∧
      (handle_start_tracking env now st p).2 =
        [mkResponse true (.jobj [("tracking_started", .jbool false),
          ("pending", .jbool true), ("session_id", .jnum p.session_id),
          ("game_name", .jstr p.game_name),
          ("message", .jstr "Waiting for process to start")]) .jnull now]) ∧
    (p.wait_for_process = false →
      (handle_start_tracking env now st p).1 = st ∧
      (handle_start_tracking env now st p).2 =
        [mkResponse false .jnull (.jstr ("Process not found: " ++ p.exe_path)) now]) := by
  have hs : (pt_start_tracking env now st.tracked p.session_id p.exe_path p.game_name).2
      = false := by
    rw [pt_start_tracking_snd]
    exact hres
  have hf : (pt_start_tracking env now st.tracked p.session_id p.exe_path p.game_name).1
      = st.tracked :=
    pt_start_tracking_fst_of_none env now st.tracked p.session_id p.exe_path p.game_name hres
  constructor
  · intro hw
    refine ⟨?_, ?_, ?_, ?_⟩
    · rw [handle_start_tracking_fst_tracked, hf]
    · rw [handle_start_tracking_fst_pending, hs]
      simp only [Bool.false_eq_true, if_false]
      rw [if_pos hw]
    · rw [handle_start_tracking_fst_pending, hs]
      simp only [Bool.false_eq_true, if_false]
      rw [if_pos hw, alContains_alInsert]
      simp
    · rw [handle_start_tracking_snd, hs]
      simp only [Bool.false_eq_true, if_false]
      rw [if_pos hw]
  · intro hw
    constructor
    · rw [handle_start_tracking_fst, hs, hf]
      simp only [Bool.false_eq_true, if_false]
      rw [if_neg (by rw [hw]; exact Bool.noConfusion)]
    · rw [handle_start_tracking_snd, hs]
      simp only [Bool.false_eq_true, if_false]
      rw [if_neg (by rw [hw]; exact Bool.noConfusion)]

/-- C8 witness: with no matching process, the waiting variant of the
request is enqueued with a `pending:true` success response. -/
theorem C8_resolution_failure_witness :
    (resolve_process envEmpty startParamsG.exe_path).isSome = false ∧
    (startParamsG.wait_for_process = true →
      (handle_start_tracking envEmpty 10 initState startParamsG).1.tracked =
        initState.tracked ∧
      (handle_start_tracking envEmpty 10 initState startParamsG).1.pending =
        alInsert initState.pending startParamsG.session_id ⟨startParamsG, 10,
          startParamsG.timeout⟩ ∧
      alContains (handle_start_tracking envEmpty 10 initState startParamsG).1.pending
        startParamsG.session_id = true ∧
      (handle_start_tracking envEmpty 10 initState startParamsG).2 =
        [mkResponse true (.jobj [("tracking_started", .jbool false),
          ("pending", .jbool true), ("session_id", .jnum startParamsG.session_id),
          ("game_name", .jstr startParamsG.game_name),
          ("message", .jstr "Waiting for process to start")]) .jnull 10]) ∧
    (startParamsG.wait_for_process = false →
      (handle_start_tracking envEmpty 10 initState startParamsG).1 = initState ∧
      (handle_start_tracking envEmpty 10 initState startParamsG).2 =
        [mkResponse false .jnull
          (.jstr ("Process not found: " ++ startParamsG.exe_path)) 10]) := by
  refine ⟨by decide, ?_⟩
  exact C8_resolution_failure envEmpty 10 initState startParamsG (by decide)

/-- C9: a monitor tick is the liveness sweep followed by the pending tick:
its notifications are the sweep's followed by the pending tick's, and its
resulting state is obtained by running the pending tick on the post-sweep
state; within the sweep, every active session whose process is no longer
running gets exactly one `process_ended` notification carrying its final
runtime `now - start_time` and is removed from the tracked map. -/
theorem C9_monitor_tick_order (env : List OsProc) (now : Nat) (st : SvcState)
    (hnd : (st.tracked.map Prod.fst).Nodup) :
    (monitor_tick env now st).2 =
      (sweep_loop env now (pt_check_all_processes env st.tracked).2 st.tracked).2 ++
      (check_pending_sessions env now
        { st with tracked :=
          (sweep_loop env now (pt_check_all_processes env st.tracked).2 st.tracked).1 }).2 ∧
    (monitor_tick env now st).1 =
      (check_pending_sessions env now
        { st with tracked :=
          (sweep_loop env now (pt_check_all_processes env st.tracked).2 st.tracked).1 }).1 ∧
    (∀ (sid : Nat) (info : TrackedInfo), alLookup st.tracked sid = some info →
      pt_is_process_running env st.tracked sid = false →
      (((sweep_loop env now (pt_check_all_processes env st.tracked).2 st.tracked).2.filter
        (fun j => isNotifFor "process_ended" sid j &&
          dataNumIs "runtime" (now - info.start_time) j)).length = 1 ∧
       alContains (sweep_loop env now (pt_check_all_processes env st.tracked).2
         st.tracked).1 sid = false)) := by
  refine ⟨rfl, rfl, ?_⟩
  intro sid info hlk hrun
  have hmem := mem_status_of_lookup env st.tracked sid info hlk
  rw [hrun] at hmem
  have hnds : (((pt_check_all_processes env st.tracked).2.map Prod.fst)).Nodup := by
    rw [status_keys]
    exact hnd
  exact sweep_loop_hit env now sid info (pt_check_all_processes env st.tracked).2
    st.tracked hnds hmem hlk

/-- C9 witness: one dead tracked session swept at t=100. -/
theorem C9_monitor_tick_order_witness :
    (stDead.tracked.map Prod.fst).Nodup ∧
    ((monitor_tick envEmpty 100 stDead).2 =
      (sweep_loop envEmpty 100 (pt_check_all_processes envEmpty stDead.tracked).2
        stDead.tracked).2 ++
      (check_pending_sessions envEmpty 100
        { stDead with tracked :=
          (sweep_loop envEmpty 100 (pt_check_all_processes envEmpty stDead.tracked).2
            stDead.tracked).1 }).2 ∧
    (monitor_tick envEmpty 100 stDead).1 =
      (check_pending_sessions envEmpty 100
        { stDead with tracked :=
          (sweep_loop envEmpty 100 (pt_check_all_processes envEmpty stDead.tracked).2
            stDead.tracked).1 }).1 ∧
    (∀ (sid : Nat) (info : TrackedInfo), alLookup stDead.tracked sid = some info →
      pt_is_process_running envEmpty stDead.tracked sid = false →
      (((sweep_loop envEmpty 100 (pt_check_all_processes envEmpty stDead.tracked).2
        stDead.tracked).2.filter
        (fun j => isNotifFor "process_ended" sid j &&
          dataNumIs "runtime" (100 - info.start_time) j)).length = 1 ∧
       alContains (sweep_loop envEmpty 100 (pt_check_all_processes envEmpty stDead.tracked).2
         stDead.tracked).1 sid = false))) :=
  ⟨by decide, C9_monitor_tick_order envEmpty 100 stDead (by decide)⟩

/-- C10: `check_all_processes` is a pure query: it returns the map
unchanged together with `{session_id: is_running}` for every tracked
session, and the `check_all` command handler leaves the service state
exactly as it was — in particular ended sessions it reports as not running
are not removed. -/
theorem C10_check_all_pure (env : List OsProc) (now : Nat) (st : SvcState) :
    pt_check_all_processes env st.tracked =
      (st.tracked,
       st.tracked.map (fun kv => (kv.1, pt_is_process_running env st.tracked kv.1))) ∧
    (handle_check_all env now st).1 = st ∧
    (handle_check_all env now st).2 =
      [mkResponse true (.jobj [("status", .jobj
        ((st.tracked.map (fun kv => (kv.1, pt_is_process_running env st.tracked kv.1))).map
          (fun kv => (toString kv.1, JVal.jbool kv.2))))]) .jnull now] :=
  ⟨rfl, rfl, rfl⟩

/-- C3 (counterexample): in the reachable state in which session 1 sits in
both maps (see the C1 scenario), `handle_stop_tracking` removes only the
pending entry and answers runtime 0; the id remains in the tracked map, so
"afterwards the id is absent from both maps" fails for that state. -/
theorem C3_stop_tracking_counterexample :
    alContains (runOps initState opsBoth).tracked 1 = true ∧
    alContains (runOps initState opsBoth).pending 1 = true ∧
    alContains (handle_stop_tracking envEmpty 30 (runOps initState opsBoth) 1).1.tracked 1
      = true := by
  decide

/-- C3 (amended): in every state in which the session id is not
simultaneously in both maps (the intended invariant), `stop_tracking`
answers one success response with no error and with the runtime: the final
runtime `now - start_time` when the id is an active tracked session, and 0
when the id is pending (cancellation) or unknown; afterwards the id is
absent from both maps, and the operation is idempotent: repeating it
returns the same state and a runtime-0 success response. -/
theorem C3_stop_tracking_amended (env : List OsProc) (now : Nat) (st : SvcState) (sid : Nat)
    (h : ¬(alContains st.tracked sid = true ∧ alContains st.pending sid = true)) :
    alContains (handle_stop_tracking env now st sid).1.tracked sid = false ∧
    alContains (handle_stop_tracking env now st sid).1.pending sid = false ∧
    ((handle_stop_tracking env now st sid).2.map (fun j => jfield j "success")) =
      [some (.jbool true)] ∧
    ((handle_stop_tracking env now st sid).2.map (fun j => jfield j "error")) =
      [some .jnull] ∧
    (alContains st.tracked sid = false → alContains st.pending sid = false →
      (handle_stop_tracking env now st sid).2 =
        [mkResponse true (.jobj [("session_id", .jnum sid),
          ("runtime", .jnum 0)]) .jnull now]) ∧
    (alContains st.pending sid = true →
      (handle_stop_tracking env now st sid).2 =
        [mkResponse true (.jobj [("session_id", .jnum sid), ("runtime", .jnum 0),
          ("message", .jstr "Pending tracking cancelled")]) .jnull now]) ∧
    (∀ (info : TrackedInfo), alLookup st.tracked sid = some info →
      (handle_stop_tracking env now st sid).2 =
        [mkResponse true (.jobj [("session_id", .jnum sid),
          ("runtime", .jnum (now - info.start_time))]) .jnull now]) ∧
    handle_stop_tracking env now (handle_stop_tracking env now st sid).1 sid =
      ((handle_stop_tracking env now st sid).1,
       [mkResponse true (.jobj [("session_id", .jnum sid),
         ("runtime", .jnum 0)]) .jnull now]) := by
  by_cases hp : alContains st.pending sid = true
  · have ht : alContains st.tracked sid = false := by
      cases hc : alContains st.tracked sid with
      | false => rfl
      | true => exact absurd ⟨hc, hp⟩ h
    have hst1 : (handle_stop_tracking env now st sid).1 =
        { st with pending := alErase st.pending sid } := by
      rw [handle_stop_tracking_fst, if_pos hp]
    have h1 : alContains (handle_stop_tracking env now st sid).1.tracked sid = false := by
      rw [hst1]
      exact ht
    have h2 : alContains (handle_stop_tracking env now st sid).1.pending sid = false := by
      rw [hst1]
      show alContains (alErase st.pending sid) sid = false
      rw [alContains_alErase]
      simp
    refine ⟨h1, h2, ?_, ?_, ?_, ?_, ?_, ?_⟩
    · rw [handle_stop_tracking_snd, if_pos hp]
      rfl
    · rw [handle_stop_tracking_snd, if_pos hp]
      rfl
    · intro _ hpf
      rw [hpf] at hp
      cases hp
    · intro _
      rw [handle_stop_tracking_snd, if_pos hp]
    · intro info hlkt
      have hct : alContains st.tracked sid = true := by
        rw [alContains_eq_isSome_alLookup, hlkt]
        rfl
      rw [ht] at hct
      exact Bool.noConfusion hct
    · rw [handle_stop_tracking_unknown env now (handle_stop_tracking env now st sid).1 sid
        h1 h2]
  · have hpf : alContains st.pending sid = false := by
      cases hc : alContains st.pending sid with
      | false => rfl
      | true => exact absurd hc hp
    have hst1 : (handle_stop_tracking env now st sid).1 =
        { st with tracked := (pt_stop_tracking env now st.tracked sid).1 } := by
      rw [handle_stop_tracking_fst, if_neg hp]
    have h1 : alContains (handle_stop_tracking env now st sid).1.tracked sid = false := by
      rw [hst1]
      exact alContains_pt_stop_tracking_self env now st.tracked sid
    have h2 : alContains (handle_stop_tracking env now st sid).1.pending sid = false := by
      rw [hst1]
      exact hpf
    refine ⟨h1, h2, ?_, ?_, ?_, ?_, ?_, ?_⟩
    · rw [handle_stop_tracking_snd, if_neg hp]
      rfl
    · rw [handle_stop_tracking_snd, if_neg hp]
      rfl
    · intro htf _
      rw [handle_stop_tracking_snd, if_neg hp, pt_stop_tracking_snd,
        pt_get_runtime_of_unknown env now st.tracked sid
          (alLookup_eq_none_of_not_contains st.tracked sid htf)]
    · intro hpt
      exact absurd hpt hp
    · intro info hlkt
      rw [handle_stop_tracking_snd, if_neg hp, pt_stop_tracking_snd,
        pt_get_runtime_of_lookup env now st.tracked sid info hlkt]
    · rw [handle_stop_tracking_unknown env now (handle_stop_tracking env now st sid).1 sid
        h1 h2]

/-- C3 witness: stopping the single dead tracked session (started at t=10,
stopped at t=50) answers its final runtime 40, and stopping the pending
session answers the runtime-0 cancellation response. -/
theorem C3_stop_tracking_amended_witness :
    (¬(alContains stDead.tracked 1 = true ∧ alContains stDead.pending 1 = true)) ∧
    (alContains (handle_stop_tracking envEmpty 50 stDead 1).1.tracked 1 = false ∧
    alContains (handle_stop_tracking envEmpty 50 stDead 1).1.pending 1 = false ∧
    ((handle_stop_tracking envEmpty 50 stDead 1).2.map (fun j => jfield j "success")) =
      [some (.jbool true)] ∧
    ((handle_stop_tracking envEmpty 50 stDead 1).2.map (fun j => jfield j "error")) =
      [some .jnull] ∧
    (alContains stDead.tracked 1 = false → alContains stDead.pending 1 = false →
      (handle_stop_tracking envEmpty 50 stDead 1).2 =
        [mkResponse true (.jobj [("session_id", .jnum 1),
          ("runtime", .jnum 0)]) .jnull 50]) ∧
    (alContains stDead.pending 1 = true →
      (handle_stop_tracking envEmpty 50 stDead 1).2 =
        [mkResponse true (.jobj [("session_id", .jnum 1), ("runtime", .jnum 0),
          ("message", .jstr "Pending tracking cancelled")]) .jnull 50]) ∧
    (∀ (info : TrackedInfo), alLookup stDead.tracked 1 = some info →
      (handle_stop_tracking envEmpty 50 stDead 1).2 =
        [mkResponse true (.jobj [("session_id", .jnum 1),
          ("runtime", .jnum (50 - info.start_time))]) .jnull 50]) ∧
    handle_stop_tracking envEmpty 50 (handle_stop_tracking envEmpty 50 stDead 1).1 1 =
      ((handle_stop_tracking envEmpty 50 stDead 1).1,
       [mkResponse true (.jobj [("session_id", .jnum 1),
         ("runtime", .jnum 0)]) .jnull 50])) ∧
    (handle_stop_tracking envEmpty 50 stDead 1).2 =
      [mkResponse true (.jobj [("session_id", .jnum 1),
        ("runtime", .jnum 40)]) .jnull 50] ∧
    (handle_stop_tracking envEmpty 50 stPend 1).2 =
      [mkResponse true (.jobj [("session_id", .jnum 1), ("runtime", .jnum 0),
        ("message", .jstr "Pending tracking cancelled")]) .jnull 50] :=
  ⟨by decide, C3_stop_tracking_amended envEmpty 50 stDead 1 (by decide), rfl, rfl⟩

end ProcTrack
